import Mathlib

/-!
Shallow embedding of the LwM2M registration scheduling core of Anjay
(src/servers/register_internal.c), together with proofs about its behavior.

Modelling conventions:
* Machine integers are `Nat`/`Int`.  The `uintptr_t` carrier of the packed
  scheduler-job argument is modelled as `Nat` (the source statically asserts
  `UINTPTR_MAX > UINT16_MAX`, i.e. the carrier is strictly wider than 16 bits).
* `avs_time_duration_t` values are normalized `(seconds, nanoseconds)` pairs
  with `0 ≤ nanoseconds < 10^9`; we represent them by their total nanosecond
  count as an `Int`.  On this representation the `seconds` field is floor
  division by `10^9`, `avs_time_duration_diff` is subtraction, and
  `avs_time_duration_div` is floor division.
* The external collaborators (scheduler, connection layer, CoAP protocol
  operations, observe and bootstrap subsystems, server registry) are modelled
  by an environment of oracle results plus explicit state updates, following
  the contracts in the specification.  Every protocol-visible action is
  recorded in an event trace.
* Stateful C code becomes explicit state passing: each operation maps an
  environment and a state to a result code, a new state and an event trace.
-/

namespace Anjay

/-! ## Time model (external avs_time API, total-nanosecond representation) -/

/-- Nanoseconds in a second. -/
def NS_PER_S : Int := 1000000000

/-- An `avs_time_duration_t`, represented by its total nanosecond count. -/
abbrev Duration := Int

/-- Model of `avs_time_duration_from_scalar(s, AVS_TIME_S)`. -/
def timeFromS (s : Int) : Duration := s * NS_PER_S

/-- Model of `avs_time_duration_diff`. -/
def durationDiff (a b : Duration) : Duration := a - b

/-- Model of `avs_time_duration_div` (floor division on the normalized
representation). -/
def durationDiv (d : Duration) (k : Int) : Duration := Int.fdiv d k

/-- The `seconds` field of the normalized representation of a duration. -/
def durationSeconds (d : Duration) : Int := Int.fdiv d NS_PER_S

/-- Model of `AVS_TIME_DURATION_ZERO`. -/
def AVS_TIME_DURATION_ZERO : Duration := 0

/-! ## Constants of the source file and of its external headers -/

/-- Update messages are sent every `LIFETIME / ANJAY_UPDATE_INTERVAL_FACTOR`
seconds (source line 39). -/
def ANJAY_UPDATE_INTERVAL_MARGIN_FACTOR : Int := 2

/-- Update messages are not sent more often than every
`ANJAY_MIN_UPDATE_INTERVAL_S` seconds (source line 44). -/
def ANJAY_MIN_UPDATE_INTERVAL_S : Int := 1

/-- The reserved SSID meaning every server (external header constant). -/
def ANJAY_SSID_ANY : Nat := 0

/-- The reserved SSID of the Bootstrap server (external header constant,
`UINT16_MAX`). -/
def ANJAY_SSID_BOOTSTRAP : Nat := 65535

/-- Network-communication error class returned by the CoAP context (external
avs_coap header).  Only its being nonzero and distinct from the other result
codes is ever used. -/
def AVS_COAP_CTX_ERR_NETWORK : Int := -1507

/-- Result code of `_anjay_update_registration` meaning the server rejected
the Update (external interface/register.h constant).  Only its being nonzero
and distinct from the other result codes is ever used. -/
def ANJAY_REGISTRATION_UPDATE_REJECTED : Int := -2

/-- Flag bit marking a scheduled update job that must refresh the connection
first (source line 47, `1 << 16`). -/
def SEND_UPDATE_SCHED_JOB_REFRESH_CONNECTION_FLAG : Nat := 1 <<< 16

/-! ## Job argument codec (source lines 55-71) -/

/-- Model of `send_update_args_encode`: pack an SSID and the
reconnect-required flag into one carrier integer. -/
def send_update_args_encode (ssid : Nat) (refresh : Bool) : Nat :=
  if refresh then ssid ||| SEND_UPDATE_SCHED_JOB_REFRESH_CONNECTION_FLAG
  else ssid

/-- Model of `send_update_args_decode`: recover the SSID (low 16 bits) and
the reconnect-required flag (bit 16). -/
def send_update_args_decode (value : Nat) : Nat × Bool :=
  (value &&& 65535,
   value &&& SEND_UPDATE_SCHED_JOB_REFRESH_CONNECTION_FLAG ≠ 0)

/-! ## Data model -/

/-- An `anjay_connection_type_t`.  `wildcard` means the registration
connection has not been decided yet. -/
inductive ConnType where
  | udp
  | sms
  | wildcard
  | unknownConn
deriving DecidableEq

/-- The registration parameters stored in a server record
(`anjay_registration_info_t`, fields used by this source file). -/
structure RegistrationInfo where
  conn_type : ConnType
  lifetime_s : Int
  last_update_time : Duration
deriving DecidableEq

/-- Callback closures that this source file hands to the scheduler. -/
inductive ClbKind where
  | sendUpdate (args : Nat)
  | forceReregister (ssid : Nat)
deriving DecidableEq

/-- A pending scheduler entry: an opaque handle, the requested delay, and the
callback with its packed argument. -/
structure SchedJob where
  handle : Nat
  delay : Duration
  clb : ClbKind
deriving DecidableEq

/-- The scheduler state: pending jobs and a fresh-handle counter. -/
structure Sched where
  jobs : List SchedJob
  nextHandle : Nat
deriving DecidableEq

/-- An active server record (`anjay_active_server_info_t`, fields used by
this source file). -/
structure Server where
  ssid : Nat
  registration_info : RegistrationInfo
  sched_update_handle : Option Nat
deriving DecidableEq

/-- The mutable state threaded through the operations: the active server
list, the scheduler, and the offline flag of the agent. -/
structure St where
  servers : List Server
  sched : Sched
  offline : Bool
deriving DecidableEq

/-- Protocol-visible actions recorded in the event trace. -/
inductive Event where
  | setupRegistrationConnection (ssid : Nat)
  | refreshConnection (ssid : Nat) (reconnect : Bool)
  | bindStream (ssid : Nat) (conn : ConnType)
  | streamReset
  | releaseStream
  | updateRegistrationExchange
  | registerExchange
  | observeFlush
  | bootstrapUpdateReconnected
  | bootstrapNotifyRegularConnection
  | connectionSuspend (ssid : Nat) (conn : ConnType)
  | schedDel (h : Option Nat)
  | schedAdd (h : Nat) (delay : Duration) (clb : ClbKind)
  | deactivate (ssid : Nat)
deriving DecidableEq

/-- Oracle results of the external collaborator calls, per the contracts in
the specification (§6). -/
structure Env where
  isOnline : Nat → ConnType → Bool
  setupConn : Nat → ConnType → Option ConnType
  bindStreamOk : Nat → ConnType → Bool
  refreshResult : Nat → Bool → Int
  updateRegistrationResult : Int
  registerResult : Int
  bootstrapUpdateReconnectedResult : Int
  schedOk : Bool
  now : Duration

/-- Result of one embedded operation: the C return value, the state after and
the trace of protocol-visible actions, in order. -/
structure Res where
  res : Int
  st : St
  tr : List Event
deriving DecidableEq

/-! ## Server registry and scheduler primitives (external collaborators) -/

/-- Model of `_anjay_servers_find_active`: first active server with the given
SSID. -/
def _anjay_servers_find_active (servers : List Server) (ssid : Nat) :
    Option Server :=
  servers.find? (fun s => s.ssid = ssid)

/-- Update the record of the server with the given SSID in place. -/
def updServer (ssid : Nat) (f : Server → Server) (servers : List Server) :
    List Server :=
  servers.map (fun s => if s.ssid = ssid then f s else s)

/-- Delete the scheduler entry with the given handle; deleting a null handle
is a no-op (scheduler contract, §5/§6 of the spec). -/
def schedDelHandle (sched : Sched) (h : Option Nat) : Sched :=
  match h with
  | none => sched
  | some hh => { sched with jobs := sched.jobs.filter (fun j => j.handle ≠ hh) }

/-- Model of `_anjay_sched_del(anjay->sched, &server->sched_update_handle)`:
cancel the server's pending update job and null its handle. -/
def sched_del_update_handle (st : St) (ssid : Nat) : St × List Event :=
  let h := match _anjay_servers_find_active st.servers ssid with
           | some srv => srv.sched_update_handle
           | none => none
  ({ st with
      sched := schedDelHandle st.sched h,
      servers := updServer ssid (fun s => { s with sched_update_handle := none })
                   st.servers },
   [Event.schedDel h])

/-- Modelled from the spec: `_anjay_server_deactivate` (src/servers/activate.c,
not part of the sources here) removes the server from the active set (§6
Server registry) and cancels its pending update job first (§5). -/
def _anjay_server_deactivate (st : St) (ssid : Nat) : St × List Event :=
  let h := match _anjay_servers_find_active st.servers ssid with
           | some srv => srv.sched_update_handle
           | none => none
  ({ st with
      sched := schedDelHandle st.sched h,
      servers := st.servers.filter (fun s => s.ssid ≠ ssid) },
   [Event.deactivate ssid])

/-- Modelled from the spec: `_anjay_register_time_remaining`
(src/interface/register.c, not part of the sources here) returns
`lifetime_s − (now − last_update_time)` (§4.2 remaining_validity). -/
def _anjay_register_time_remaining (info : RegistrationInfo) (now : Duration) :
    Duration :=
  durationDiff (timeFromS info.lifetime_s)
    (durationDiff now info.last_update_time)

/-! ## The operations of src/servers/register_internal.c -/

/-- Model of `force_server_reregister` (source lines 94-102): submit
`force_server_reregister_clb` to the scheduler with zero delay via
`_anjay_sched_now`; -1 if the scheduler refuses. -/
def force_server_reregister (env : Env) (st : St) (ssid : Nat) : Res :=
  if env.schedOk then
    let h := st.sched.nextHandle
    ⟨0,
     { st with
        sched := { jobs := st.sched.jobs ++ [⟨h, AVS_TIME_DURATION_ZERO,
                     ClbKind.forceReregister ssid⟩],
                   nextHandle := h + 1 } },
     [Event.schedAdd h AVS_TIME_DURATION_ZERO (ClbKind.forceReregister ssid)]⟩
  else ⟨-1, st, []⟩

/-- Model of `schedule_update` (source lines 157-172): encode the job
argument and submit `send_update_sched_job` with the given delay via
`_anjay_sched_retryable`, storing the new handle into the server's
`sched_update_handle` on success. -/
def schedule_update (env : Env) (st : St) (ssid : Nat) (delay : Duration)
    (refresh : Bool) : Res :=
  let update_args := send_update_args_encode ssid refresh
  if env.schedOk then
    let h := st.sched.nextHandle
    ⟨0,
     { st with
        sched := { jobs := st.sched.jobs ++ [⟨h, delay,
                     ClbKind.sendUpdate update_args⟩],
                   nextHandle := h + 1 },
        servers := updServer ssid
          (fun s => { s with sched_update_handle := some h }) st.servers },
     [Event.schedAdd h delay (ClbKind.sendUpdate update_args)]⟩
  else ⟨-1, st, []⟩

/-- Model of `get_server_update_interval` (source lines 149-155). -/
def get_server_update_interval (info : RegistrationInfo) : Duration :=
  durationDiv (timeFromS info.lifetime_s) ANJAY_UPDATE_INTERVAL_MARGIN_FACTOR

/-- The delay computed by `schedule_next_update` (source lines 178-187):
remaining registration validity minus the update interval, floored at
`ANJAY_MIN_UPDATE_INTERVAL_S` whenever its `seconds` field is below that. -/
def schedule_next_update_delay (info : RegistrationInfo) (now : Duration) :
    Duration :=
  let remaining := durationDiff (_anjay_register_time_remaining info now)
    (get_server_update_interval info)
  if durationSeconds remaining < ANJAY_MIN_UPDATE_INTERVAL_S then
    timeFromS ANJAY_MIN_UPDATE_INTERVAL_S
  else remaining

/-- Model of `schedule_next_update` (source lines 174-191): schedule the next
update with the policy delay and `DONT_RECONNECT`. -/
def schedule_next_update (env : Env) (st : St) (ssid : Nat) : Res :=
  match _anjay_servers_find_active st.servers ssid with
  | none => ⟨-1, st, []⟩
  | some srv =>
      schedule_update env st ssid
        (schedule_next_update_delay srv.registration_info env.now) false

/-- Model of `_anjay_server_register` (source lines 334-362). -/
def _anjay_server_register (env : Env) (st : St) (ssid : Nat) : Res :=
  match _anjay_servers_find_active st.servers ssid with
  | none => ⟨-1, st, []⟩
  | some srv =>
    match env.setupConn ssid srv.registration_info.conn_type with
    | none => ⟨-1, st, [Event.setupRegistrationConnection ssid]⟩
    | some newConn =>
      let st1 : St :=
        { st with
            servers := updServer ssid
              (fun s => { s with registration_info :=
                { s.registration_info with conn_type := newConn } })
              st.servers }
      if env.bindStreamOk ssid newConn then
        let result := env.registerResult
        let tr0 := [Event.setupRegistrationConnection ssid,
                    Event.bindStream ssid newConn,
                    Event.registerExchange, Event.streamReset]
        if result = 0 then
          let (st2, trDel) := sched_del_update_handle st1 ssid
          let r := schedule_next_update env st2 ssid
          ⟨0, r.st,
           tr0 ++ trDel ++ r.tr ++
             [Event.observeFlush, Event.bootstrapNotifyRegularConnection,
              Event.releaseStream]⟩
        else
          ⟨result, st1, tr0 ++ [Event.releaseStream]⟩
      else
        ⟨-1, st1, [Event.setupRegistrationConnection ssid]⟩

/-- Model of `force_server_reregister_clb` (source lines 73-92): silent no-op
for an inactive server; otherwise register, deactivating the server if the
registration fails; always returns 0. -/
def force_server_reregister_clb (env : Env) (st : St) (ssid : Nat) : Res :=
  match _anjay_servers_find_active st.servers ssid with
  | none => ⟨0, st, []⟩
  | some _ =>
    let r := _anjay_server_register env st ssid
    if r.res ≠ 0 then
      let (st2, tr2) := _anjay_server_deactivate r.st ssid
      ⟨0, st2, r.tr ++ tr2⟩
    else
      ⟨0, r.st, r.tr⟩

/-- Model of `send_update` (source lines 193-218). -/
def send_update (env : Env) (st : St) (ssid : Nat)
    (info : RegistrationInfo) : Res :=
  let conn := info.conn_type
  if env.bindStreamOk ssid conn then
    let result := env.updateRegistrationResult
    let tr0 := [Event.bindStream ssid conn, Event.updateRegistrationExchange]
    if result = ANJAY_REGISTRATION_UPDATE_REJECTED then
      let r := force_server_reregister env st ssid
      ⟨r.res, r.st, tr0 ++ r.tr ++ [Event.streamReset, Event.releaseStream]⟩
    else if result ≠ 0 then
      ⟨result, st, tr0 ++ [Event.streamReset, Event.releaseStream]⟩
    else
      ⟨0, st, tr0 ++ [Event.observeFlush, Event.streamReset,
                      Event.releaseStream]⟩
  else ⟨-1, st, []⟩

/-- Model of `_anjay_server_update_or_reregister` (source lines 220-253). -/
def _anjay_server_update_or_reregister (env : Env) (st : St) (srv : Server) :
    Res :=
  let conn := srv.registration_info.conn_type
  if conn = ConnType.wildcard ∨ ¬ env.isOnline srv.ssid conn then
    match env.setupConn srv.ssid conn with
    | none => ⟨-1, st, [Event.setupRegistrationConnection srv.ssid]⟩
    | some newConn =>
      let st1 : St :=
        { st with
            servers := updServer srv.ssid
              (fun s => { s with registration_info :=
                { s.registration_info with conn_type := newConn } })
              st.servers }
      let r := force_server_reregister env st1 srv.ssid
      ⟨r.res, r.st, Event.setupRegistrationConnection srv.ssid :: r.tr⟩
  else
    let remaining := _anjay_register_time_remaining srv.registration_info
      env.now
    if remaining < AVS_TIME_DURATION_ZERO then
      force_server_reregister env st srv.ssid
    else
      send_update env st srv.ssid srv.registration_info

/-- Model of `_anjay_server_reschedule_update_job` (source lines 255-264):
cancel the pending update job, then schedule the next update per the timing
policy. -/
def _anjay_server_reschedule_update_job (env : Env) (st : St) (ssid : Nat) :
    Res :=
  match _anjay_servers_find_active st.servers ssid with
  | none => ⟨-1, st, []⟩
  | some _ =>
    let (st1, tr1) := sched_del_update_handle st ssid
    let r := schedule_next_update env st1 ssid
    if r.res ≠ 0 then ⟨-1, r.st, tr1 ++ r.tr⟩
    else ⟨0, r.st, tr1 ++ r.tr⟩

/-- Model of `send_update_sched_job` (source lines 104-147). -/
def send_update_sched_job (env : Env) (st : St) (args : Nat) : Res :=
  let ssid := (send_update_args_decode args).1
  let reconnect_required := (send_update_args_decode args).2
  match _anjay_servers_find_active st.servers ssid with
  | none => ⟨-1, st, []⟩
  | some srv =>
    let is_bootstrap := srv.ssid = ANJAY_SSID_BOOTSTRAP
    let result0 := env.refreshResult ssid reconnect_required
    let tr0 := [Event.refreshConnection ssid reconnect_required]
    let (result1, tr1) :=
      if result0 = 0 ∧ reconnect_required ∧ is_bootstrap then
        (env.bootstrapUpdateReconnectedResult,
         tr0 ++ [Event.bootstrapUpdateReconnected])
      else (result0, tr0)
    let (result2, st2, tr2) :=
      if result1 = 0 ∧ ¬ is_bootstrap then
        let r := _anjay_server_update_or_reregister env st srv
        if r.res = AVS_COAP_CTX_ERR_NETWORK then
          (r.res, r.st,
           tr1 ++ r.tr ++
             [Event.connectionSuspend srv.ssid
                srv.registration_info.conn_type])
        else (r.res, r.st, tr1 ++ r.tr)
      else (result1, st, tr1)
    if result2 = 0 then
      let r := _anjay_server_reschedule_update_job env st2 ssid
      ⟨r.res, r.st, tr2 ++ r.tr⟩
    else ⟨result2, st2, tr2⟩

/-- Model of `reschedule_update_for_server` (source lines 266-276): cancel
the pending update job, then schedule a zero-delay update job. -/
def reschedule_update_for_server (env : Env) (st : St) (ssid : Nat)
    (refresh : Bool) : Res :=
  match _anjay_servers_find_active st.servers ssid with
  | none => ⟨-1, st, []⟩
  | some _ =>
    let (st1, tr1) := sched_del_update_handle st ssid
    let r := schedule_update env st1 ssid AVS_TIME_DURATION_ZERO refresh
    if r.res ≠ 0 then ⟨-1, r.st, tr1 ++ r.tr⟩
    else ⟨0, r.st, tr1 ++ r.tr⟩

/-- Model of `reschedule_update_for_all_servers` (source lines 278-292),
iterating over the listed SSIDs and keeping the first nonzero result. -/
def reschedule_all_go (env : Env) (refresh : Bool) :
    List Nat → St → Int → List Event → Res
  | [], st, acc, tr => ⟨acc, st, tr⟩
  | ssid :: rest, st, acc, tr =>
    let r := reschedule_update_for_server env st ssid refresh
    reschedule_all_go env refresh rest r.st
      (if acc = 0 then r.res else acc) (tr ++ r.tr)

/-- Model of `reschedule_update_for_all_servers` (source lines 278-292). -/
def reschedule_update_for_all_servers (env : Env) (st : St) (refresh : Bool) :
    Res :=
  reschedule_all_go env refresh (st.servers.map Server.ssid) st 0 []

/-- Model of `anjay_schedule_registration_update` (source lines 294-318). -/
def anjay_schedule_registration_update (env : Env) (st : St) (ssid : Nat) :
    Res :=
  if st.offline then ⟨-1, st, []⟩
  else if ssid = ANJAY_SSID_ANY then
    reschedule_update_for_all_servers env st false
  else
    match _anjay_servers_find_active st.servers ssid with
    | none => ⟨-1, st, []⟩
    | some _ => reschedule_update_for_server env st ssid false

/-- Model of `anjay_schedule_reconnect` (source lines 320-327). -/
def anjay_schedule_reconnect (env : Env) (st : St) : Res :=
  let r := reschedule_update_for_all_servers env st true
  if r.res ≠ 0 then r
  else ⟨0, { r.st with offline := false }, r.tr⟩

/-! ## Codec lemmas -/

theorem flag_eq_two_pow :
    SEND_UPDATE_SCHED_JOB_REFRESH_CONNECTION_FLAG = 2 ^ 16 := by
  simp [SEND_UPDATE_SCHED_JOB_REFRESH_CONNECTION_FLAG, Nat.shiftLeft_eq]

theorem encode_land_mask {s : Nat} (hs : s < 65536) (r : Bool) :
    send_update_args_encode s r &&& 65535 = s := by
  have h15 : (65535 : Nat) = 2 ^ 16 - 1 := by norm_num
  rw [h15]
  cases r with
  | false =>
      rw [send_update_args_encode, if_neg Bool.false_ne_true]
      exact Nat.and_pow_two_sub_one_of_lt_two_pow (by omega)
  | true =>
      rw [send_update_args_encode, if_pos rfl, flag_eq_two_pow,
        Nat.and_pow_two_sub_one_eq_mod]
      apply Nat.eq_of_testBit_eq
      intro i
      rw [Nat.testBit_mod_two_pow]
      rcases lt_or_ge i 16 with hi | hi
      · rw [Nat.testBit_lor, Nat.testBit_two_pow_of_ne (by omega : 16 ≠ i)]
        simp [hi]
      · have hs' : s < 2 ^ i :=
          lt_of_lt_of_le (by omega) (Nat.pow_le_pow_right (by omega) hi)
        simp [Nat.not_lt.mpr hi, Nat.testBit_lt_two_pow hs']

theorem encode_land_flag_true (s : Nat) :
    send_update_args_encode s true &&&
      SEND_UPDATE_SCHED_JOB_REFRESH_CONNECTION_FLAG = 2 ^ 16 := by
  rw [send_update_args_encode, if_pos rfl, flag_eq_two_pow, Nat.and_two_pow,
    Nat.testBit_lor, Nat.testBit_two_pow_self, Bool.or_true]
  rfl

theorem encode_land_flag_false {s : Nat} (hs : s < 65536) :
    send_update_args_encode s false &&&
      SEND_UPDATE_SCHED_JOB_REFRESH_CONNECTION_FLAG = 0 := by
  rw [send_update_args_encode, if_neg Bool.false_ne_true, flag_eq_two_pow,
    Nat.and_two_pow, Nat.testBit_lt_two_pow (show s < 2 ^ 16 by omega)]
  rfl

/-- Roundtrip of the job-argument codec, usable by the other developments. -/
theorem decode_encode {s : Nat} (hs : s < 65536) (r : Bool) :
    send_update_args_decode (send_update_args_encode s r) = (s, r) := by
  unfold send_update_args_decode
  cases r with
  | false =>
      simp [encode_land_mask hs, encode_land_flag_false hs]
  | true =>
      simp [encode_land_mask hs, encode_land_flag_true]

/-! ## Concrete environments and states used for witnesses -/

/-- A benign environment: every collaborator call succeeds. -/
def envNop : Env :=
  { isOnline := fun _ _ => true
    setupConn := fun _ c => some c
    bindStreamOk := fun _ _ => true
    refreshResult := fun _ _ => 0
    updateRegistrationResult := 0
    registerResult := 0
    bootstrapUpdateReconnectedResult := 0
    schedOk := true
    now := 0 }

/-- A state with no active servers and an empty scheduler. -/
def stEmpty : St := { servers := [], sched := ⟨[], 0⟩, offline := false }

/-! ## Claim C10: the job-argument codec -/

/-- C10: for every 16-bit ServerId `s` and both values of the reconnect flag
`r`, decoding the encoded job argument recovers the pair exactly; the flag
occupies bit 16 of the carrier, so an argument encoded without the flag stays
below `2^16` and one encoded with the flag is at least `2^16`, which no valid
16-bit ServerId can reach. -/
theorem claim_C10 :
    ∀ s : Nat, s < 65536 → ∀ r : Bool,
      send_update_args_decode (send_update_args_encode s r) = (s, r) ∧
      (send_update_args_encode s r).testBit 16 = r ∧
      send_update_args_encode s false < 2 ^ 16 ∧
      2 ^ 16 ≤ send_update_args_encode s true := by
  intro s hs r
  refine ⟨decode_encode hs r, ?_, ?_, ?_⟩
  · cases r with
    | false =>
        rw [send_update_args_encode, if_neg Bool.false_ne_true]
        exact Nat.testBit_lt_two_pow (by omega)
    | true =>
        rw [send_update_args_encode, if_pos rfl, flag_eq_two_pow,
          Nat.testBit_lor, Nat.testBit_two_pow_self, Bool.or_true]
  · rw [send_update_args_encode, if_neg Bool.false_ne_true]
    omega
  · calc (2 : Nat) ^ 16
        = send_update_args_encode s true &&&
            SEND_UPDATE_SCHED_JOB_REFRESH_CONNECTION_FLAG :=
          (encode_land_flag_true s).symm
      _ ≤ send_update_args_encode s true := Nat.and_le_left

/-- Witness for C10 at a concrete ServerId and both flag values. -/
theorem claim_C10_witness :
    send_update_args_decode (send_update_args_encode 42 true) = (42, true) ∧
    send_update_args_decode (send_update_args_encode 42 false) =
      (42, false) :=
  ⟨(claim_C10 42 (by norm_num) true).1, (claim_C10 42 (by norm_num) false).1⟩

/-! ## Claim C5: the next-update delay of the timing policy -/

/-- C5: for granted lifetime `L` seconds and elapsed time `E = now −
last_update_time` (in nanoseconds), the delay chosen when scheduling the next
update is `(L − E) − L/2` (computed exactly, `L/2` seconds being `L *
(NS_PER_S / 2)` nanoseconds), clamped below at one second; in particular it
is exactly one second for `L = 1, E = 0` and exactly two seconds, unclamped,
for `L = 4, E = 0`. -/
theorem claim_C5 :
    (∀ (info : RegistrationInfo) (now : Duration),
      schedule_next_update_delay info now =
        if info.lifetime_s * NS_PER_S - (now - info.last_update_time)
            - info.lifetime_s * (NS_PER_S / 2) < NS_PER_S
        then NS_PER_S
        else info.lifetime_s * NS_PER_S - (now - info.last_update_time)
            - info.lifetime_s * (NS_PER_S / 2)) ∧
    schedule_next_update_delay ⟨ConnType.udp, 1, 0⟩ 0 = timeFromS 1 ∧
    schedule_next_update_delay ⟨ConnType.udp, 4, 0⟩ 0 = 2 * NS_PER_S := by
  refine ⟨?_, by decide, by decide⟩
  intro info now
  simp only [schedule_next_update_delay, _anjay_register_time_remaining,
    get_server_update_interval, durationDiff, durationDiv, durationSeconds,
    timeFromS, ANJAY_MIN_UPDATE_INTERVAL_S,
    ANJAY_UPDATE_INTERVAL_MARGIN_FACTOR, NS_PER_S]
  have hdiv2 : Int.fdiv (info.lifetime_s * 1000000000) 2 =
      info.lifetime_s * 500000000 := by
    rw [show info.lifetime_s * 1000000000 =
        info.lifetime_s * 500000000 * 2 by ring]
    exact Int.mul_fdiv_cancel _ (by norm_num)
  rw [hdiv2]
  set rem : Int := info.lifetime_s * 1000000000 -
    (now - info.last_update_time) - info.lifetime_s * 500000000 with hrem
  have hsec : Int.fdiv rem 1000000000 = rem / 1000000000 :=
    Int.fdiv_eq_ediv rem (by norm_num)
  rw [hsec]
  split_ifs with h1 h2 h2 <;> first | rfl | omega

/-! ## Claim C3 (corrected): a stale update job is a no-op, but returns -1 -/

/-- C3 counterexample: with no active servers, the fired update job returns
-1, not the scheduler's done status 0 as the claim states. -/
theorem claim_C3_counterexample :
    (send_update_sched_job envNop stEmpty
        (send_update_args_encode 1 false)).res = -1 ∧
    (-1 : Int) ≠ 0 :=
  ⟨rfl, by norm_num⟩

/-- C3 (amended): when the scheduled update job fires for an SSID that is no
longer active, it performs no connection refresh and no protocol action and
leaves the state unchanged, but it returns -1 — the scheduler's retry
signal — rather than the done status 0. -/
theorem claim_C3_stale_job :
    ∀ (env : Env) (st : St) (ssid : Nat) (r : Bool),
      ssid ≠ ANJAY_SSID_ANY → ssid < 65536 →
      _anjay_servers_find_active st.servers ssid = none →
      send_update_sched_job env st (send_update_args_encode ssid r) =
        ⟨-1, st, []⟩ := by
  intro env st ssid r _ hlt hfind
  simp only [send_update_sched_job, decode_encode hlt, hfind]

/-- Witness for the amended C3 at a concrete stale SSID. -/
theorem claim_C3_stale_job_witness :
    send_update_sched_job envNop stEmpty (send_update_args_encode 1 false) =
      ⟨-1, stEmpty, []⟩ :=
  claim_C3_stale_job envNop stEmpty 1 false (by decide) (by decide) rfl

/-! ## Helper lemmas about the server list -/

theorem find?_updServer_eq (ssid : Nat) (f : Server → Server)
    (hf : ∀ s, (f s).ssid = s.ssid) (l : List Server) :
    _anjay_servers_find_active (updServer ssid f l) ssid =
      (_anjay_servers_find_active l ssid).map f := by
  induction l with
  | nil => rfl
  | cons a l ih =>
      unfold _anjay_servers_find_active updServer at ih ⊢
      by_cases ha : a.ssid = ssid
      · rw [List.map_cons, if_pos ha, List.find?_cons_of_pos _ (by simp [hf, ha]),
          List.find?_cons_of_pos _ (by simp [ha]), Option.map_some']
      · rw [List.map_cons, if_neg ha, List.find?_cons_of_neg _ (by simp [ha]),
          List.find?_cons_of_neg _ (by simp [ha])]
        exact ih

theorem find?_updServer_ne (ssid q : Nat) (hne : q ≠ ssid)
    (f : Server → Server) (hf : ∀ s, (f s).ssid = s.ssid) (l : List Server) :
    _anjay_servers_find_active (updServer ssid f l) q =
      _anjay_servers_find_active l q := by
  induction l with
  | nil => rfl
  | cons a l ih =>
      unfold _anjay_servers_find_active updServer at ih ⊢
      by_cases ha : a.ssid = ssid
      · rw [List.map_cons, if_pos ha,
          List.find?_cons_of_neg _ (by simp [hf, ha]; omega),
          List.find?_cons_of_neg _ (by simp [ha]; omega)]
        exact ih
      · by_cases haq : a.ssid = q
        · rw [List.map_cons, if_neg ha, List.find?_cons_of_pos _ (by simp [haq]),
            List.find?_cons_of_pos _ (by simp [haq])]
        · rw [List.map_cons, if_neg ha, List.find?_cons_of_neg _ (by simp [haq]),
            List.find?_cons_of_neg _ (by simp [haq])]
          exact ih

theorem map_proj_updServer {α : Type} (ssid : Nat) (f : Server → Server)
    (proj : Server → α) (hf : ∀ s, proj (f s) = proj s) (l : List Server) :
    (updServer ssid f l).map proj = l.map proj := by
  unfold updServer
  rw [List.map_map]
  apply List.map_congr_left
  intro s _
  by_cases hs : s.ssid = ssid <;> simp [hs, hf]

/-- Field projection recording the registration-relevant state of a server:
everything except the transport kind chosen by connection setup. -/
def regState (s : Server) : Nat × Option Nat × Int × Duration :=
  (s.ssid, s.sched_update_handle, s.registration_info.lifetime_s,
   s.registration_info.last_update_time)

/-- The next-update delay does not depend on the connection kind. -/
theorem delay_ignores_conn (info : RegistrationInfo) (c : ConnType)
    (now : Duration) :
    schedule_next_update_delay { info with conn_type := c } now =
      schedule_next_update_delay info now := rfl

/-! ## Claim C8: forced re-registration failure deactivates the server -/

theorem stale_update_job (env : Env) (st : St) (ssid : Nat) (r : Bool)
    (hlt : ssid < 65536)
    (h : _anjay_servers_find_active st.servers ssid = none) :
    send_update_sched_job env st (send_update_args_encode ssid r) =
      ⟨-1, st, []⟩ := by
  simp only [send_update_sched_job, decode_encode hlt, h]

theorem stale_reregister_job (env : Env) (st : St) (ssid : Nat)
    (h : _anjay_servers_find_active st.servers ssid = none) :
    force_server_reregister_clb env st ssid = ⟨0, st, []⟩ := by
  unfold force_server_reregister_clb
  rw [h]

theorem find?_filter_ne (l : List Server) (ssid : Nat) :
    _anjay_servers_find_active (l.filter (fun s => s.ssid ≠ ssid)) ssid =
      none := by
  unfold _anjay_servers_find_active
  rw [List.find?_eq_none]
  intro x hx
  simp only [List.mem_filter, decide_not] at hx
  simpa using hx.2

/-- State with one ordinary active server of SSID 2 and an empty scheduler. -/
def stOne : St :=
  { servers := [⟨2, ⟨ConnType.udp, 10, 0⟩, none⟩],
    sched := ⟨[], 0⟩, offline := false }

/-- Environment in which the Register exchange fails. -/
def envRegFail : Env := { envNop with registerResult := -1 }

/-- C8: the forced re-registration job always returns 0 (so the scheduler
never re-invokes it); if the server is already inactive it is a silent no-op;
if the register operation fails, the server is removed from the active set,
and any job subsequently firing for that SSID — an update job or another
forced re-registration — is a no-op on the state. -/
theorem claim_C8 :
    ∀ (env : Env) (st : St) (ssid : Nat),
      (force_server_reregister_clb env st ssid).res = 0 ∧
      (_anjay_servers_find_active st.servers ssid = none →
        force_server_reregister_clb env st ssid = ⟨0, st, []⟩) ∧
      ((_anjay_server_register env st ssid).res ≠ 0 →
        ∀ srv, _anjay_servers_find_active st.servers ssid = some srv →
          _anjay_servers_find_active
            (force_server_reregister_clb env st ssid).st.servers ssid =
              none ∧
          (∀ (env' : Env) (r : Bool), ssid < 65536 →
            send_update_sched_job env'
                (force_server_reregister_clb env st ssid).st
                (send_update_args_encode ssid r) =
              ⟨-1, (force_server_reregister_clb env st ssid).st, []⟩ ∧
            force_server_reregister_clb env'
                (force_server_reregister_clb env st ssid).st ssid =
              ⟨0, (force_server_reregister_clb env st ssid).st, []⟩)) := by
  intro env st ssid
  refine ⟨?_, ?_, ?_⟩
  · unfold force_server_reregister_clb
    cases h : _anjay_servers_find_active st.servers ssid with
    | none => rfl
    | some srv => simp only [h]; split <;> rfl
  · intro h
    unfold force_server_reregister_clb
    rw [h]
  · intro hres srv hfind
    have hclb : (force_server_reregister_clb env st ssid).st =
        (_anjay_server_deactivate (_anjay_server_register env st ssid).st
          ssid).1 := by
      unfold force_server_reregister_clb
      rw [hfind]
      simp only [if_pos hres]
    have hnone : _anjay_servers_find_active
        (force_server_reregister_clb env st ssid).st.servers ssid = none := by
      rw [hclb]
      exact find?_filter_ne _ _
    refine ⟨hnone, ?_⟩
    intro env' r hlt
    exact ⟨stale_update_job env' _ ssid r hlt hnone,
           stale_reregister_job env' _ ssid hnone⟩

/-- Witness for C8: a concrete failing registration removes the server. -/
theorem claim_C8_witness :
    (force_server_reregister_clb envRegFail stOne 2).res = 0 ∧
    _anjay_servers_find_active
      (force_server_reregister_clb envRegFail stOne 2).st.servers 2 = none ∧
    send_update_sched_job envNop (force_server_reregister_clb envRegFail
        stOne 2).st (send_update_args_encode 2 false) =
      ⟨-1, (force_server_reregister_clb envRegFail stOne 2).st, []⟩ := by
  have h := claim_C8 envRegFail stOne 2
  have h3 := h.2.2 (by decide) ⟨2, ⟨ConnType.udp, 10, 0⟩, none⟩ rfl
  exact ⟨h.1, h3.1, (h3.2 envNop false (by norm_num)).1⟩

/-! ## Claim C1: the three branches of update-or-reregister -/

/-- C1: for an active non-Bootstrap server, `_anjay_server_update_or_reregister`
decides among three branches in priority order.  If the registration
connection kind is wildcard or the transport is offline, it sets up a
concrete registration connection and re-registers; else if the remaining
registration validity is negative it re-registers without redoing connection
setup; else it sends an Update on the existing stream.  In the first two
branches no Register or Update exchange happens inline: re-registration is
submitted as a zero-delay scheduler job. -/
theorem claim_C1 (env : Env) (st : St) (srv : Server)
    (_hb : srv.ssid ≠ ANJAY_SSID_BOOTSTRAP)
    (res : Int) (st' : St) (tr : List Event)
    (heq : _anjay_server_update_or_reregister env st srv = ⟨res, st', tr⟩) :
    ((srv.registration_info.conn_type = ConnType.wildcard ∨
        ¬ env.isOnline srv.ssid srv.registration_info.conn_type) →
      Event.registerExchange ∉ tr ∧
      Event.updateRegistrationExchange ∉ tr ∧
      Event.setupRegistrationConnection srv.ssid ∈ tr ∧
      (env.setupConn srv.ssid srv.registration_info.conn_type = none →
        res = -1 ∧ st' = st) ∧
      (env.setupConn srv.ssid srv.registration_info.conn_type ≠ none →
        env.schedOk = true →
        res = 0 ∧
        (⟨st.sched.nextHandle, AVS_TIME_DURATION_ZERO,
           ClbKind.forceReregister srv.ssid⟩ : SchedJob) ∈
          st'.sched.jobs)) ∧
    (¬ (srv.registration_info.conn_type = ConnType.wildcard ∨
        ¬ env.isOnline srv.ssid srv.registration_info.conn_type) →
      _anjay_register_time_remaining srv.registration_info env.now <
        AVS_TIME_DURATION_ZERO →
      Event.registerExchange ∉ tr ∧
      Event.updateRegistrationExchange ∉ tr ∧
      Event.setupRegistrationConnection srv.ssid ∉ tr ∧
      (env.schedOk = true →
        res = 0 ∧
        (⟨st.sched.nextHandle, AVS_TIME_DURATION_ZERO,
           ClbKind.forceReregister srv.ssid⟩ : SchedJob) ∈
          st'.sched.jobs)) ∧
    (¬ (srv.registration_info.conn_type = ConnType.wildcard ∨
        ¬ env.isOnline srv.ssid srv.registration_info.conn_type) →
      ¬ (_anjay_register_time_remaining srv.registration_info env.now <
        AVS_TIME_DURATION_ZERO) →
      send_update env st srv.ssid srv.registration_info = ⟨res, st', tr⟩) := by
  simp only [_anjay_server_update_or_reregister] at heq
  refine ⟨?_, ?_, ?_⟩
  · intro hcond
    rw [if_pos hcond] at heq
    cases hsetup : env.setupConn srv.ssid srv.registration_info.conn_type with
    | none =>
        rw [hsetup] at heq
        simp only [Res.mk.injEq] at heq
        obtain ⟨rfl, rfl, rfl⟩ := heq
        refine ⟨by simp, by simp, by simp, fun _ => ⟨rfl, rfl⟩, ?_⟩
        intro hne
        exact absurd rfl hne
    | some c =>
        rw [hsetup] at heq
        simp only [force_server_reregister] at heq
        by_cases hok : env.schedOk = true
        · rw [if_pos hok] at heq
          simp only [Res.mk.injEq] at heq
          obtain ⟨rfl, rfl, rfl⟩ := heq
          refine ⟨by simp, by simp, by simp, ?_, ?_⟩
          · intro hsn; simp at hsn
          · intro _ _
            exact ⟨rfl, by simp⟩
        · rw [if_neg hok] at heq
          simp only [Res.mk.injEq] at heq
          obtain ⟨rfl, rfl, rfl⟩ := heq
          refine ⟨by simp, by simp, by simp, ?_, ?_⟩
          · intro hsn; simp at hsn
          · intro _ hok'
            exact absurd hok' (by simpa using hok)
  · intro hcond hrem
    rw [if_neg hcond, if_pos hrem] at heq
    simp only [force_server_reregister] at heq
    by_cases hok : env.schedOk = true
    · rw [if_pos hok] at heq
      simp only [Res.mk.injEq] at heq
      obtain ⟨rfl, rfl, rfl⟩ := heq
      exact ⟨by simp, by simp, by simp, fun _ => ⟨rfl, by simp⟩⟩
    · rw [if_neg hok] at heq
      simp only [Res.mk.injEq] at heq
      obtain ⟨rfl, rfl, rfl⟩ := heq
      exact ⟨by simp, by simp, by simp,
             fun hok' => absurd hok' (by simpa using hok)⟩
  · intro hcond hrem
    rw [if_neg hcond, if_neg hrem] at heq
    exact heq

/-- Witness for C1: a wildcard connection forces the scheduled re-register
branch on a concrete state. -/
theorem claim_C1_witness :
    Event.registerExchange ∉
      (_anjay_server_update_or_reregister envNop
        { servers := [⟨2, ⟨ConnType.wildcard, 10, 0⟩, none⟩],
          sched := ⟨[], 0⟩, offline := false }
        ⟨2, ⟨ConnType.wildcard, 10, 0⟩, none⟩).tr ∧
    (⟨0, AVS_TIME_DURATION_ZERO, ClbKind.forceReregister 2⟩ : SchedJob) ∈
      (_anjay_server_update_or_reregister envNop
        { servers := [⟨2, ⟨ConnType.wildcard, 10, 0⟩, none⟩],
          sched := ⟨[], 0⟩, offline := false }
        ⟨2, ⟨ConnType.wildcard, 10, 0⟩, none⟩).st.sched.jobs := by
  have h := claim_C1 envNop
    { servers := [⟨2, ⟨ConnType.wildcard, 10, 0⟩, none⟩],
      sched := ⟨[], 0⟩, offline := false }
    ⟨2, ⟨ConnType.wildcard, 10, 0⟩, none⟩ (by decide)
    (_anjay_server_update_or_reregister envNop
      { servers := [⟨2, ⟨ConnType.wildcard, 10, 0⟩, none⟩],
        sched := ⟨[], 0⟩, offline := false }
      ⟨2, ⟨ConnType.wildcard, 10, 0⟩, none⟩).res
    (_anjay_server_update_or_reregister envNop
      { servers := [⟨2, ⟨ConnType.wildcard, 10, 0⟩, none⟩],
        sched := ⟨[], 0⟩, offline := false }
      ⟨2, ⟨ConnType.wildcard, 10, 0⟩, none⟩).st
    (_anjay_server_update_or_reregister envNop
      { servers := [⟨2, ⟨ConnType.wildcard, 10, 0⟩, none⟩],
        sched := ⟨[], 0⟩, offline := false }
      ⟨2, ⟨ConnType.wildcard, 10, 0⟩, none⟩).tr rfl
  have h1 := h.1 (Or.inl rfl)
  exact ⟨h1.1, by
    have h2 := (h1.2.2.2.2 (by decide) rfl).2
    simpa using h2⟩

/-! ## Claim C4: network error during Update suspends the connection -/

/-- The network-communication error class can only come out of the plain
Update-failure path of `_anjay_server_update_or_reregister`; in that path the
state is untouched and the trace is exactly the bound-stream exchange. -/
theorem uor_network (env : Env) (st : St) (srv : Server)
    (h : (_anjay_server_update_or_reregister env st srv).res =
      AVS_COAP_CTX_ERR_NETWORK) :
    env.updateRegistrationResult = AVS_COAP_CTX_ERR_NETWORK ∧
    _anjay_server_update_or_reregister env st srv =
      ⟨AVS_COAP_CTX_ERR_NETWORK, st,
       [Event.bindStream srv.ssid srv.registration_info.conn_type,
        Event.updateRegistrationExchange, Event.streamReset,
        Event.releaseStream]⟩ := by
  simp only [_anjay_server_update_or_reregister] at h ⊢
  by_cases h1 : (srv.registration_info.conn_type = ConnType.wildcard ∨
      ¬ env.isOnline srv.ssid srv.registration_info.conn_type)
  · rw [if_pos h1] at h
    exfalso
    cases hsetup : env.setupConn srv.ssid srv.registration_info.conn_type with
    | none => rw [hsetup] at h; simp [AVS_COAP_CTX_ERR_NETWORK] at h
    | some c =>
        rw [hsetup] at h
        simp only [force_server_reregister] at h
        split at h <;> simp [AVS_COAP_CTX_ERR_NETWORK] at h
  · rw [if_neg h1] at h ⊢
    by_cases h2 : _anjay_register_time_remaining srv.registration_info
        env.now < AVS_TIME_DURATION_ZERO
    · rw [if_pos h2] at h
      exfalso
      simp only [force_server_reregister] at h
      split at h <;> simp [AVS_COAP_CTX_ERR_NETWORK] at h
    · rw [if_neg h2] at h ⊢
      simp only [send_update] at h ⊢
      by_cases h3 : env.bindStreamOk srv.ssid
          srv.registration_info.conn_type = true
      · rw [if_pos h3] at h ⊢
        by_cases h4 : env.updateRegistrationResult =
            ANJAY_REGISTRATION_UPDATE_REJECTED
        · exfalso
          rw [if_pos h4] at h
          simp only [force_server_reregister] at h
          split at h <;> simp [AVS_COAP_CTX_ERR_NETWORK] at h
        · rw [if_neg h4] at h ⊢
          by_cases h5 : env.updateRegistrationResult ≠ 0
          · rw [if_pos h5] at h ⊢
            simp only at h
            refine ⟨h, ?_⟩
            rw [h]
            rfl
          · exfalso
            rw [if_neg h5] at h
            simp [AVS_COAP_CTX_ERR_NETWORK] at h
      · exfalso
        rw [if_neg h3] at h
        simp [AVS_COAP_CTX_ERR_NETWORK] at h

/-- C4: if `_anjay_server_update_or_reregister` returns the
network-communication error class during a fired update job, the dispatcher
suspends exactly the connection kind recorded in the registration info as
its final action, makes no scheduler call and no reconnection attempt
(the state, scheduler included, is returned unchanged), and propagates the
nonzero error as the retry signal. -/
theorem claim_C4 (env : Env) (st : St) (ssid : Nat) (srv : Server) (r : Bool)
    (hlt : ssid < 65536)
    (hfind : _anjay_servers_find_active st.servers ssid = some srv)
    (hnb : srv.ssid ≠ ANJAY_SSID_BOOTSTRAP)
    (hrefresh : env.refreshResult ssid r = 0)
    (hnet : (_anjay_server_update_or_reregister env st srv).res =
      AVS_COAP_CTX_ERR_NETWORK) :
    send_update_sched_job env st (send_update_args_encode ssid r) =
      ⟨AVS_COAP_CTX_ERR_NETWORK, st,
       [Event.refreshConnection ssid r,
        Event.bindStream srv.ssid srv.registration_info.conn_type,
        Event.updateRegistrationExchange, Event.streamReset,
        Event.releaseStream,
        Event.connectionSuspend srv.ssid srv.registration_info.conn_type]⟩ ∧
    AVS_COAP_CTX_ERR_NETWORK ≠ 0 := by
  obtain ⟨hupd, heq⟩ := uor_network env st srv hnet
  constructor
  · simp [send_update_sched_job, decode_encode hlt, hfind, hrefresh, hnb,
      heq, AVS_COAP_CTX_ERR_NETWORK]
  · norm_num [AVS_COAP_CTX_ERR_NETWORK]

/-- Environment in which the Update exchange fails with the network error. -/
def envNetErr : Env :=
  { envNop with updateRegistrationResult := AVS_COAP_CTX_ERR_NETWORK }

/-- Witness for C4 on a concrete server and network-failing environment. -/
theorem claim_C4_witness :
    send_update_sched_job envNetErr stOne (send_update_args_encode 2 false) =
      ⟨AVS_COAP_CTX_ERR_NETWORK, stOne,
       [Event.refreshConnection 2 false, Event.bindStream 2 ConnType.udp,
        Event.updateRegistrationExchange, Event.streamReset,
        Event.releaseStream, Event.connectionSuspend 2 ConnType.udp]⟩ :=
  (claim_C4 envNetErr stOne 2 ⟨2, ⟨ConnType.udp, 10, 0⟩, none⟩ false
    (by norm_num) rfl (by decide) rfl (by decide)).1

/-! ## Characterization of the cancel-then-reschedule compositions -/

theorem schedDelHandle_nextHandle (sch : Sched) (h : Option Nat) :
    (schedDelHandle sch h).nextHandle = sch.nextHandle := by
  cases h <;> rfl

theorem regInfo_handle_upd (srv : Server) :
    (Server.mk srv.ssid srv.registration_info none).registration_info =
      srv.registration_info := rfl

/-- Complete characterization of `_anjay_server_reschedule_update_job` on a
state that does contain the server: the pending handle's job is deleted, the
handle nulled, and a fresh update job with the policy delay is scheduled. -/
theorem reschedule_update_job_eq (env : Env) (st : St) (ssid : Nat)
    (srv : Server)
    (hfind : _anjay_servers_find_active st.servers ssid = some srv) :
    _anjay_server_reschedule_update_job env st ssid =
      if env.schedOk = true then
        ⟨0,
         { servers := updServer ssid
             (fun s =>
               { s with sched_update_handle := some st.sched.nextHandle })
             (updServer ssid
               (fun s => { s with sched_update_handle := none }) st.servers),
           sched := ⟨(schedDelHandle st.sched srv.sched_update_handle).jobs ++
             [⟨st.sched.nextHandle,
               schedule_next_update_delay srv.registration_info env.now,
               ClbKind.sendUpdate (send_update_args_encode ssid false)⟩],
             st.sched.nextHandle + 1⟩,
           offline := st.offline },
         [Event.schedDel srv.sched_update_handle,
          Event.schedAdd st.sched.nextHandle
            (schedule_next_update_delay srv.registration_info env.now)
            (ClbKind.sendUpdate (send_update_args_encode ssid false))]⟩
      else
        ⟨-1,
         { servers := updServer ssid
             (fun s => { s with sched_update_handle := none }) st.servers,
           sched := schedDelHandle st.sched srv.sched_update_handle,
           offline := st.offline },
         [Event.schedDel srv.sched_update_handle]⟩ := by
  have hfind1 : _anjay_servers_find_active
      (updServer ssid (fun s => { s with sched_update_handle := none })
        st.servers) ssid =
      some { srv with sched_update_handle := none } := by
    rw [find?_updServer_eq ssid
      (fun s => { s with sched_update_handle := none }) (fun s => rfl) _,
      hfind, Option.map_some']
  simp only [_anjay_server_reschedule_update_job, sched_del_update_handle,
    schedule_next_update, schedule_update, hfind, hfind1]
  by_cases hok : env.schedOk = true
  · rw [if_pos hok, if_pos hok]
    simp only [schedDelHandle_nextHandle]
    rfl
  · rw [if_neg hok, if_neg hok]
    rfl

/-- Complete characterization of `reschedule_update_for_server` on a state
that does contain the server: cancel the pending job, then schedule a
zero-delay update job with the given reconnect flag. -/
theorem reschedule_for_server_eq (env : Env) (st : St) (ssid : Nat)
    (refresh : Bool) (srv : Server)
    (hfind : _anjay_servers_find_active st.servers ssid = some srv) :
    reschedule_update_for_server env st ssid refresh =
      if env.schedOk = true then
        ⟨0,
         { servers := updServer ssid
             (fun s =>
               { s with sched_update_handle := some st.sched.nextHandle })
             (updServer ssid
               (fun s => { s with sched_update_handle := none }) st.servers),
           sched := ⟨(schedDelHandle st.sched srv.sched_update_handle).jobs ++
             [⟨st.sched.nextHandle, AVS_TIME_DURATION_ZERO,
               ClbKind.sendUpdate (send_update_args_encode ssid refresh)⟩],
             st.sched.nextHandle + 1⟩,
           offline := st.offline },
         [Event.schedDel srv.sched_update_handle,
          Event.schedAdd st.sched.nextHandle AVS_TIME_DURATION_ZERO
            (ClbKind.sendUpdate (send_update_args_encode ssid refresh))]⟩
      else
        ⟨-1,
         { servers := updServer ssid
             (fun s => { s with sched_update_handle := none }) st.servers,
           sched := schedDelHandle st.sched srv.sched_update_handle,
           offline := st.offline },
         [Event.schedDel srv.sched_update_handle]⟩ := by
  simp only [reschedule_update_for_server, sched_del_update_handle,
    schedule_update, hfind]
  by_cases hok : env.schedOk = true
  · rw [if_pos hok, if_pos hok]
    simp only [schedDelHandle_nextHandle]
    rfl
  · rw [if_neg hok, if_neg hok]
    rfl

/-! ## Claim C6 (corrected): the Bootstrap update job -/

/-- State with only the Bootstrap server active. -/
def stBoot : St :=
  { servers := [⟨65535, ⟨ConnType.udp, 10, 0⟩, none⟩],
    sched := ⟨[], 0⟩, offline := false }

/-- C6 counterexample: when the update job fires for the Bootstrap server
(with the reconnect flag, all collaborators succeeding), the bootstrap
notification does replace the Update exchange, but the job then re-arms the
Bootstrap server's update timer: its pending-update-job handle is `some 0`
afterwards — not unarmed — and an update job for the Bootstrap SSID sits in
the scheduler. -/
theorem claim_C6_counterexample :
    send_update_sched_job envNop stBoot
        (send_update_args_encode ANJAY_SSID_BOOTSTRAP true) =
      ⟨0,
       ⟨[⟨65535, ⟨ConnType.udp, 10, 0⟩, some 0⟩],
        ⟨[⟨0, 5000000000, ClbKind.sendUpdate 65535⟩], 1⟩, false⟩,
       [Event.refreshConnection 65535 true, Event.bootstrapUpdateReconnected,
        Event.schedDel none,
        Event.schedAdd 0 5000000000 (ClbKind.sendUpdate 65535)]⟩ ∧
    (some 0 : Option Nat) ≠ none := by
  constructor
  · decide
  · simp

/-- C6 (amended): when the scheduled update job fires for the Bootstrap
server, the bootstrap reconnection notification substitutes for the regular
Update flow — no Update or Register exchange happens and no stream is bound —
but when the job succeeds it does re-arm the update timer for the Bootstrap
server through the common rescheduling path: its pending-update-job handle is
armed with the fresh handle and a new update job for the Bootstrap SSID is
pending. -/
theorem claim_C6_bootstrap_job (env : Env) (st : St) (srv : Server) (r : Bool)
    (hfind : _anjay_servers_find_active st.servers ANJAY_SSID_BOOTSTRAP =
      some srv) :
    (∀ e ∈ (send_update_sched_job env st
        (send_update_args_encode ANJAY_SSID_BOOTSTRAP r)).tr,
      e ≠ Event.updateRegistrationExchange ∧ e ≠ Event.registerExchange ∧
      ∀ q c, e ≠ Event.bindStream q c) ∧
    (env.refreshResult ANJAY_SSID_BOOTSTRAP r = 0 →
     (r = true → env.bootstrapUpdateReconnectedResult = 0) →
     env.schedOk = true →
     send_update_sched_job env st
         (send_update_args_encode ANJAY_SSID_BOOTSTRAP r) =
       ⟨0,
        { servers := updServer ANJAY_SSID_BOOTSTRAP
            (fun s =>
              { s with sched_update_handle := some st.sched.nextHandle })
            (updServer ANJAY_SSID_BOOTSTRAP
              (fun s => { s with sched_update_handle := none }) st.servers),
          sched := ⟨(schedDelHandle st.sched srv.sched_update_handle).jobs ++
            [⟨st.sched.nextHandle,
              schedule_next_update_delay srv.registration_info env.now,
              ClbKind.sendUpdate
                (send_update_args_encode ANJAY_SSID_BOOTSTRAP false)⟩],
            st.sched.nextHandle + 1⟩,
          offline := st.offline },
        Event.refreshConnection ANJAY_SSID_BOOTSTRAP r ::
          ((if r then [Event.bootstrapUpdateReconnected] else []) ++
           [Event.schedDel srv.sched_update_handle,
            Event.schedAdd st.sched.nextHandle
              (schedule_next_update_delay srv.registration_info env.now)
              (ClbKind.sendUpdate
                (send_update_args_encode ANJAY_SSID_BOOTSTRAP false))])⟩ ∧
     _anjay_servers_find_active
         (send_update_sched_job env st
           (send_update_args_encode ANJAY_SSID_BOOTSTRAP r)).st.servers
         ANJAY_SSID_BOOTSTRAP =
       some { srv with sched_update_handle := some st.sched.nextHandle }) := by
  have hssid : srv.ssid = ANJAY_SSID_BOOTSTRAP := by
    simpa using List.find?_some hfind
  have hlt : ANJAY_SSID_BOOTSTRAP < 65536 := by norm_num [ANJAY_SSID_BOOTSTRAP]
  have hres := reschedule_update_job_eq env st ANJAY_SSID_BOOTSTRAP srv hfind
  constructor
  · cases r with
    | false =>
        by_cases hr : env.refreshResult ANJAY_SSID_BOOTSTRAP false = 0
        · by_cases hok : env.schedOk = true
          · rw [if_pos hok] at hres
            simp [send_update_sched_job, decode_encode hlt, hfind, hssid,
              hr, hres, List.forall_mem_cons]
          · rw [if_neg hok] at hres
            simp [send_update_sched_job, decode_encode hlt, hfind, hssid,
              hr, hres, List.forall_mem_cons]
        · simp [send_update_sched_job, decode_encode hlt, hfind, hssid,
            hr, List.forall_mem_cons]
    | true =>
        by_cases hr : env.refreshResult ANJAY_SSID_BOOTSTRAP true = 0
        · by_cases hb2 : env.bootstrapUpdateReconnectedResult = 0
          · by_cases hok : env.schedOk = true
            · rw [if_pos hok] at hres
              simp [send_update_sched_job, decode_encode hlt, hfind,
                hssid, hr, hb2, hres, List.forall_mem_cons]
            · rw [if_neg hok] at hres
              simp [send_update_sched_job, decode_encode hlt, hfind,
                hssid, hr, hb2, hres, List.forall_mem_cons]
          · simp [send_update_sched_job, decode_encode hlt, hfind,
              hssid, hr, hb2, List.forall_mem_cons]
        · simp [send_update_sched_job, decode_encode hlt, hfind, hssid,
            hr, List.forall_mem_cons]
  · intro h1 h2 hok
    rw [if_pos hok] at hres
    have hjob : send_update_sched_job env st
        (send_update_args_encode ANJAY_SSID_BOOTSTRAP r) =
        ⟨0,
         { servers := updServer ANJAY_SSID_BOOTSTRAP
             (fun s =>
               { s with sched_update_handle := some st.sched.nextHandle })
             (updServer ANJAY_SSID_BOOTSTRAP
               (fun s => { s with sched_update_handle := none }) st.servers),
           sched := ⟨(schedDelHandle st.sched srv.sched_update_handle).jobs ++
             [⟨st.sched.nextHandle,
               schedule_next_update_delay srv.registration_info env.now,
               ClbKind.sendUpdate
                 (send_update_args_encode ANJAY_SSID_BOOTSTRAP false)⟩],
             st.sched.nextHandle + 1⟩,
           offline := st.offline },
         Event.refreshConnection ANJAY_SSID_BOOTSTRAP r ::
           ((if r then [Event.bootstrapUpdateReconnected] else []) ++
            [Event.schedDel srv.sched_update_handle,
             Event.schedAdd st.sched.nextHandle
               (schedule_next_update_delay srv.registration_info env.now)
               (ClbKind.sendUpdate
                 (send_update_args_encode ANJAY_SSID_BOOTSTRAP false))])⟩ := by
      cases r with
      | false =>
          simp [send_update_sched_job, decode_encode hlt, hfind, hssid, h1,
            hres]
      | true =>
          simp [send_update_sched_job, decode_encode hlt, hfind, hssid, h1,
            h2 rfl, hres]
    refine ⟨hjob, ?_⟩
    rw [hjob]
    rw [find?_updServer_eq ANJAY_SSID_BOOTSTRAP
      (fun s => { s with sched_update_handle := some st.sched.nextHandle })
      (fun s => rfl) _,
      find?_updServer_eq ANJAY_SSID_BOOTSTRAP
      (fun s => { s with sched_update_handle := none })
      (fun s => rfl) _,
      hfind]
    rfl

/-- Witness for the amended C6: the concrete Bootstrap state above. -/
theorem claim_C6_bootstrap_job_witness :
    send_update_sched_job envNop stBoot
        (send_update_args_encode ANJAY_SSID_BOOTSTRAP true) =
      ⟨0,
       { servers := updServer ANJAY_SSID_BOOTSTRAP
           (fun s => { s with sched_update_handle := some 0 })
           (updServer ANJAY_SSID_BOOTSTRAP
             (fun s => { s with sched_update_handle := none })
             stBoot.servers),
         sched := ⟨(schedDelHandle stBoot.sched none).jobs ++
           [⟨0, schedule_next_update_delay ⟨ConnType.udp, 10, 0⟩ 0,
             ClbKind.sendUpdate
               (send_update_args_encode ANJAY_SSID_BOOTSTRAP false)⟩], 1⟩,
         offline := false },
       Event.refreshConnection ANJAY_SSID_BOOTSTRAP true ::
         ((if true then [Event.bootstrapUpdateReconnected] else []) ++
          [Event.schedDel none,
           Event.schedAdd 0 (schedule_next_update_delay ⟨ConnType.udp, 10, 0⟩ 0)
             (ClbKind.sendUpdate
               (send_update_args_encode ANJAY_SSID_BOOTSTRAP false))])⟩ :=
  ((claim_C6_bootstrap_job envNop stBoot ⟨65535, ⟨ConnType.udp, 10, 0⟩, none⟩
      true rfl).2 rfl (fun _ => rfl) rfl).1

/-! ## Claim C7: the register operation -/

/-- C7: `_anjay_server_register` on an active server.  On success (Register
exchange returns zero) it re-arms the update timer with the timing-policy
delay (when the scheduler accepts the job), flushes buffered observation data
and notifies that a regular connection became available; on failure it
propagates a nonzero result and leaves the scheduler state and every
server's registration state (pending handle, lifetime, last update time —
everything but the transport kind chosen by the external connection setup)
unchanged; and whenever the protocol stream was bound it is released. -/
theorem claim_C7 (env : Env) (st : St) (ssid : Nat) (srv : Server)
    (hfind : _anjay_servers_find_active st.servers ssid = some srv) :
    ((_anjay_server_register env st ssid).res = 0 →
      env.registerResult = 0 ∧
      Event.observeFlush ∈ (_anjay_server_register env st ssid).tr ∧
      Event.bootstrapNotifyRegularConnection ∈
        (_anjay_server_register env st ssid).tr ∧
      (env.schedOk = true →
        (⟨st.sched.nextHandle,
          schedule_next_update_delay srv.registration_info env.now,
          ClbKind.sendUpdate (send_update_args_encode ssid false)⟩ :
            SchedJob) ∈ (_anjay_server_register env st ssid).st.sched.jobs ∧
        ∃ s', _anjay_servers_find_active
            (_anjay_server_register env st ssid).st.servers ssid = some s' ∧
          s'.sched_update_handle = some st.sched.nextHandle)) ∧
    ((_anjay_server_register env st ssid).res ≠ 0 →
      (_anjay_server_register env st ssid).st.sched = st.sched ∧
      (_anjay_server_register env st ssid).st.servers.map regState =
        st.servers.map regState ∧
      (_anjay_server_register env st ssid).st.offline = st.offline) ∧
    (∀ c, Event.bindStream ssid c ∈ (_anjay_server_register env st ssid).tr →
      Event.releaseStream ∈ (_anjay_server_register env st ssid).tr) := by
  cases hsetup : env.setupConn ssid srv.registration_info.conn_type with
  | none =>
      have heq : _anjay_server_register env st ssid =
          ⟨-1, st, [Event.setupRegistrationConnection ssid]⟩ := by
        simp only [_anjay_server_register, hfind, hsetup]
      rw [heq]
      refine ⟨?_, fun _ => ⟨rfl, rfl, rfl⟩, ?_⟩
      · intro h; simp at h
      · intro c hc; simp at hc
  | some c =>
      have hfind1 : _anjay_servers_find_active
          (updServer ssid (fun s =>
            { s with registration_info :=
              { s.registration_info with conn_type := c } }) st.servers)
          ssid =
          some { srv with registration_info :=
            { srv.registration_info with conn_type := c } } := by
        rw [find?_updServer_eq ssid (fun s =>
          { s with registration_info :=
            { s.registration_info with conn_type := c } }) (fun s => rfl) _,
          hfind, Option.map_some']
      have hmap : (updServer ssid (fun s =>
          { s with registration_info :=
            { s.registration_info with conn_type := c } })
          st.servers).map regState = st.servers.map regState :=
        map_proj_updServer ssid (fun s =>
          { s with registration_info :=
            { s.registration_info with conn_type := c } })
          regState (fun s => rfl) st.servers
      by_cases hbind : env.bindStreamOk ssid c = true
      · by_cases hreg : env.registerResult = 0
        · have hfind2 : _anjay_servers_find_active
              (updServer ssid
                (fun s => { s with sched_update_handle := none })
                (updServer ssid (fun s =>
                  { s with registration_info :=
                    { s.registration_info with conn_type := c } })
                  st.servers)) ssid =
              some ⟨srv.ssid,
                { srv.registration_info with conn_type := c }, none⟩ := by
            rw [find?_updServer_eq ssid
              (fun s => { s with sched_update_handle := none })
              (fun s => rfl) _, hfind1, Option.map_some']
          by_cases hok : env.schedOk = true
          · have heq : _anjay_server_register env st ssid =
                ⟨0,
                 { servers := updServer ssid
                     (fun s =>
                       { s with sched_update_handle := some st.sched.nextHandle })
                     (updServer ssid
                       (fun s => { s with sched_update_handle := none })
                       (updServer ssid (fun s =>
                         { s with registration_info :=
                           { s.registration_info with conn_type := c } })
                         st.servers)),
                   sched := ⟨(schedDelHandle st.sched
                       srv.sched_update_handle).jobs ++
                     [⟨st.sched.nextHandle,
                       schedule_next_update_delay
                         { srv.registration_info with conn_type := c }
                         env.now,
                       ClbKind.sendUpdate
                         (send_update_args_encode ssid false)⟩],
                     st.sched.nextHandle + 1⟩,
                   offline := st.offline },
                 [Event.setupRegistrationConnection ssid,
                  Event.bindStream ssid c, Event.registerExchange,
                  Event.streamReset,
                  Event.schedDel srv.sched_update_handle,
                  Event.schedAdd st.sched.nextHandle
                    (schedule_next_update_delay
                      { srv.registration_info with conn_type := c } env.now)
                    (ClbKind.sendUpdate (send_update_args_encode ssid false)),
                  Event.observeFlush,
                  Event.bootstrapNotifyRegularConnection,
                  Event.releaseStream]⟩ := by
              simp only [_anjay_server_register, hfind, hsetup, hbind, hreg,
                if_pos, sched_del_update_handle, hfind1, schedule_next_update,
                hfind2, schedule_update, hok, schedDelHandle_nextHandle,
                if_true]
              simp [schedDelHandle_nextHandle]
            rw [heq]
            refine ⟨?_, ?_, ?_⟩
            · intro _
              refine ⟨hreg, by simp, by simp, fun _ => ⟨?_, ?_⟩⟩
              · exact List.mem_append_right _ (List.mem_singleton.mpr rfl)
              · refine ⟨⟨srv.ssid,
                  { srv.registration_info with conn_type := c },
                  some st.sched.nextHandle⟩, ?_, rfl⟩
                rw [find?_updServer_eq ssid
                  (fun s =>
                    { s with sched_update_handle := some st.sched.nextHandle })
                  (fun s => rfl) _, hfind2, Option.map_some']
            · intro h; simp at h
            · intro c' _; simp
          · have heq : _anjay_server_register env st ssid =
                ⟨0,
                 { servers := updServer ssid
                     (fun s => { s with sched_update_handle := none })
                     (updServer ssid (fun s =>
                       { s with registration_info :=
                         { s.registration_info with conn_type := c } })
                       st.servers),
                   sched := schedDelHandle st.sched srv.sched_update_handle,
                   offline := st.offline },
                 [Event.setupRegistrationConnection ssid,
                  Event.bindStream ssid c, Event.registerExchange,
                  Event.streamReset,
                  Event.schedDel srv.sched_update_handle,
                  Event.observeFlush,
                  Event.bootstrapNotifyRegularConnection,
                  Event.releaseStream]⟩ := by
              simp only [_anjay_server_register, hfind, hsetup, hbind, hreg,
                sched_del_update_handle, hfind1, schedule_next_update,
                hfind2, schedule_update, hok]
              simp [hok]
            rw [heq]
            refine ⟨?_, ?_, ?_⟩
            · intro _
              refine ⟨hreg, by simp, by simp, fun hok' => absurd hok' hok⟩
            · intro h; simp at h
            · intro c' _; simp
        · have heq : _anjay_server_register env st ssid =
              ⟨env.registerResult,
               { servers := updServer ssid (fun s =>
                   { s with registration_info :=
                     { s.registration_info with conn_type := c } })
                   st.servers,
                 sched := st.sched, offline := st.offline },
               [Event.setupRegistrationConnection ssid,
                Event.bindStream ssid c, Event.registerExchange,
                Event.streamReset, Event.releaseStream]⟩ := by
            simp only [_anjay_server_register, hfind, hsetup, hbind, hreg]
            simp [hbind, hreg]
          rw [heq]
          refine ⟨?_, ?_, ?_⟩
          · intro h
            simp only at h
            exact absurd h hreg
          · intro _
            exact ⟨rfl, hmap, rfl⟩
          · intro c' _; simp
      · have heq : _anjay_server_register env st ssid =
            ⟨-1,
             { servers := updServer ssid (fun s =>
                 { s with registration_info :=
                   { s.registration_info with conn_type := c } })
                 st.servers,
               sched := st.sched, offline := st.offline },
             [Event.setupRegistrationConnection ssid]⟩ := by
          simp only [_anjay_server_register, hfind, hsetup]
          simp [hbind]
        rw [heq]
        refine ⟨?_, ?_, ?_⟩
        · intro h; simp at h
        · intro _
          exact ⟨rfl, hmap, rfl⟩
        · intro c' hc'; simp at hc'

/-- Witness for C7: a successful registration on the concrete one-server
state. -/
theorem claim_C7_witness :
    Event.observeFlush ∈ (_anjay_server_register envNop stOne 2).tr ∧
    (⟨0, schedule_next_update_delay ⟨ConnType.udp, 10, 0⟩ 0,
      ClbKind.sendUpdate (send_update_args_encode 2 false)⟩ : SchedJob) ∈
      (_anjay_server_register envNop stOne 2).st.sched.jobs := by
  have h := (claim_C7 envNop stOne 2 ⟨2, ⟨ConnType.udp, 10, 0⟩, none⟩ rfl).1
    (by decide)
  exact ⟨h.2.1, (h.2.2.2 rfl).1⟩

/-! ## The at-most-one-pending-update-job invariant -/

/-- The SSID a scheduled callback would send an Update for, if any. -/
def updateTargetSsid : ClbKind → Option Nat
  | ClbKind.sendUpdate args => some (send_update_args_decode args).1
  | ClbKind.forceReregister _ => none

/-- The job is a pending update job for the given SSID. -/
def isUpdateJobFor (j : SchedJob) (ssid : Nat) : Prop :=
  updateTargetSsid j.clb = some ssid

/-- Well-formedness of a state, as maintained by the scheduling operations:
scheduler handles are distinct and below the freshness counter, server SSIDs
are distinct 16-bit values, and every pending update job for a server's SSID
is exactly the one its `sched_update_handle` points to. -/
structure Inv (st : St) : Prop where
  jobsNodup : (st.sched.jobs.map SchedJob.handle).Nodup
  jobsLt : ∀ j ∈ st.sched.jobs, j.handle < st.sched.nextHandle
  srvLt : ∀ s ∈ st.servers, ∀ h, s.sched_update_handle = some h →
    h < st.sched.nextHandle
  ssidNodup : (st.servers.map Server.ssid).Nodup
  ssidLt : ∀ s ∈ st.servers, s.ssid < 65536
  tracked : ∀ s ∈ st.servers, ∀ j ∈ st.sched.jobs,
    isUpdateJobFor j s.ssid → s.sched_update_handle = some j.handle
  owned : ∀ s ∈ st.servers, ∀ j ∈ st.sched.jobs,
    s.sched_update_handle = some j.handle → isUpdateJobFor j s.ssid

/-- No two distinct update jobs for the same server are simultaneously
pending. -/
def AtMostOneUpdateJob (st : St) : Prop :=
  ∀ s ∈ st.servers, ∀ j1 ∈ st.sched.jobs, ∀ j2 ∈ st.sched.jobs,
    isUpdateJobFor j1 s.ssid → isUpdateJobFor j2 s.ssid → j1 = j2

theorem atMostOne_of_inv {st : St} (hInv : Inv st) : AtMostOneUpdateJob st := by
  intro s hs j1 hj1 j2 hj2 h1 h2
  have e1 := hInv.tracked s hs j1 hj1 h1
  have e2 := hInv.tracked s hs j2 hj2 h2
  exact List.inj_on_of_nodup_map hInv.jobsNodup hj1 hj2
    (Option.some.inj (e1.symm.trans e2))

theorem mem_updServer_cases {s' : Server} {ssid : Nat} {f : Server → Server}
    {l : List Server} (h : s' ∈ updServer ssid f l) :
    (∃ s, s ∈ l ∧ s.ssid = ssid ∧ s' = f s) ∨ (s' ∈ l ∧ s'.ssid ≠ ssid) := by
  unfold updServer at h
  rw [List.mem_map] at h
  obtain ⟨s, hs, hs'⟩ := h
  by_cases he : s.ssid = ssid
  · rw [if_pos he] at hs'
    exact Or.inl ⟨s, hs, he, hs'.symm⟩
  · rw [if_neg he] at hs'
    exact Or.inr ⟨hs' ▸ hs, hs' ▸ he⟩

theorem schedDelHandle_jobs_subset {sch : Sched} {h : Option Nat} :
    ∀ j ∈ (schedDelHandle sch h).jobs, j ∈ sch.jobs := by
  intro j hj
  cases h with
  | none => exact hj
  | some hh =>
      simp only [schedDelHandle, List.mem_filter] at hj
      exact hj.1

theorem schedDelHandle_map_sublist (sch : Sched) (h : Option Nat) :
    ((schedDelHandle sch h).jobs.map SchedJob.handle).Sublist
      (sch.jobs.map SchedJob.handle) := by
  cases h with
  | none => exact List.Sublist.refl _
  | some hh => exact List.Sublist.map _ (List.filter_sublist _)

/-- After cancelling the server's pending handle, no update job for the
server's SSID survives. -/
theorem schedDel_no_update_job {st : St} {ssid : Nat} {srv : Server}
    (hInv : Inv st)
    (hfind : _anjay_servers_find_active st.servers ssid = some srv) :
    ∀ j ∈ (schedDelHandle st.sched srv.sched_update_handle).jobs,
      ¬ isUpdateJobFor j ssid := by
  intro j hj hfor
  have hmem : srv ∈ st.servers := List.mem_of_find?_eq_some hfind
  have hssid : srv.ssid = ssid := by simpa using List.find?_some hfind
  have hj0 := schedDelHandle_jobs_subset j hj
  have htr := hInv.tracked srv hmem j hj0 (hssid ▸ hfor)
  rw [htr] at hj
  simp only [schedDelHandle, List.mem_filter] at hj
  simpa using hj.2

/-- Jobs that are not update jobs for the cancelled server's SSID survive the
cancellation. -/
theorem schedDel_keeps_other_jobs {st : St} {ssid : Nat} {srv : Server}
    (hInv : Inv st)
    (hfind : _anjay_servers_find_active st.servers ssid = some srv) :
    ∀ j ∈ st.sched.jobs, ¬ isUpdateJobFor j ssid →
      j ∈ (schedDelHandle st.sched srv.sched_update_handle).jobs := by
  intro j hj hnot
  have hmem : srv ∈ st.servers := List.mem_of_find?_eq_some hfind
  have hssid : srv.ssid = ssid := by simpa using List.find?_some hfind
  cases hh : srv.sched_update_handle with
  | none => simpa [schedDelHandle, hh] using hj
  | some h0 =>
      simp only [schedDelHandle, hh, List.mem_filter]
      refine ⟨hj, ?_⟩
      have hne : j.handle ≠ h0 := by
        intro heq
        exact hnot (hssid ▸ hInv.owned srv hmem j hj (by rw [hh, heq]))
      simp [hne]

/-- Update of server records that touches neither the SSID nor the pending
handle preserves the invariant. -/
theorem inv_updPreserving {st : St} (ssid : Nat) (f : Server → Server)
    (hssid : ∀ s, (f s).ssid = s.ssid)
    (hhandle : ∀ s, (f s).sched_update_handle = s.sched_update_handle)
    (hInv : Inv st) :
    Inv { st with servers := updServer ssid f st.servers } := by
  refine ⟨hInv.jobsNodup, hInv.jobsLt, ?_, ?_, ?_, ?_, ?_⟩
  · intro s' hs' h hh
    rcases mem_updServer_cases hs' with ⟨s, hs, _, rfl⟩ | ⟨hs, _⟩
    · exact hInv.srvLt s hs h (by rw [← hhandle s, hh])
    · exact hInv.srvLt s' hs h hh
  · rw [map_proj_updServer ssid f Server.ssid hssid]
    exact hInv.ssidNodup
  · intro s' hs'
    rcases mem_updServer_cases hs' with ⟨s, hs, _, rfl⟩ | ⟨hs, _⟩
    · rw [hssid]; exact hInv.ssidLt s hs
    · exact hInv.ssidLt s' hs
  · intro s' hs' j hj hfor
    rcases mem_updServer_cases hs' with ⟨s, hs, _, rfl⟩ | ⟨hs, _⟩
    · rw [hhandle]
      exact hInv.tracked s hs j hj (by rwa [hssid] at hfor)
    · exact hInv.tracked s' hs j hj hfor
  · intro s' hs' j hj hh
    rcases mem_updServer_cases hs' with ⟨s, hs, _, rfl⟩ | ⟨hs, _⟩
    · rw [hssid]
      exact hInv.owned s hs j hj (by rw [← hhandle s, hh])
    · exact hInv.owned s' hs j hj hh

/-- The cancel-then-schedule composition preserves the invariant: the state
built by deleting the server's pending job, nulling its handle, and
scheduling a fresh update job for it with the next free handle is again
well-formed. -/
theorem inv_cancel_schedule {st : St} {ssid : Nat} {srv : Server}
    (hInv : Inv st)
    (hfind : _anjay_servers_find_active st.servers ssid = some srv)
    (delay : Duration) (refresh : Bool) (off : Bool) :
    Inv { servers := updServer ssid
            (fun s =>
              { s with sched_update_handle := some st.sched.nextHandle })
            (updServer ssid (fun s => { s with sched_update_handle := none })
              st.servers),
          sched := ⟨(schedDelHandle st.sched srv.sched_update_handle).jobs ++
            [⟨st.sched.nextHandle, delay,
              ClbKind.sendUpdate (send_update_args_encode ssid refresh)⟩],
            st.sched.nextHandle + 1⟩,
          offline := off } := by
  have hmem : srv ∈ st.servers := List.mem_of_find?_eq_some hfind
  have hssid0 : srv.ssid = ssid := by simpa using List.find?_some hfind
  have hlt : ssid < 65536 := hssid0 ▸ hInv.ssidLt srv hmem
  have hdec : (send_update_args_decode
      (send_update_args_encode ssid refresh)).1 = ssid := by
    rw [decode_encode hlt]
  refine ⟨?_, ?_, ?_, ?_, ?_, ?_, ?_⟩ <;> simp only []
  · rw [List.map_append, List.nodup_append]
    refine ⟨(schedDelHandle_map_sublist _ _).nodup hInv.jobsNodup,
      by simp, ?_⟩
    intro a ha hb
    simp only [List.map_cons, List.map_nil, List.mem_singleton] at hb
    subst hb
    rw [List.mem_map] at ha
    obtain ⟨j, hj, hjh⟩ := ha
    have := hInv.jobsLt j (schedDelHandle_jobs_subset j hj)
    omega
  · intro j hj
    rcases List.mem_append.mp hj with hj1 | hj2
    · have := hInv.jobsLt j (schedDelHandle_jobs_subset j hj1)
      omega
    · rw [List.mem_singleton] at hj2
      subst hj2
      simp
  · intro s' hs' h hh
    rcases mem_updServer_cases hs' with ⟨s2, hs2, he2, rfl⟩ | ⟨hs2, hne2⟩
    · simp only at hh
      obtain rfl : st.sched.nextHandle = h := Option.some.inj hh
      simp
    · rcases mem_updServer_cases hs2 with ⟨s3, _, he3, rfl⟩ | ⟨hs3, _⟩
      · exact absurd he3 hne2
      · have := hInv.srvLt s' hs3 h hh
        omega
  · rw [map_proj_updServer ssid
      (fun s => { s with sched_update_handle := some st.sched.nextHandle })
      Server.ssid (fun s => rfl),
      map_proj_updServer ssid
      (fun s => { s with sched_update_handle := none })
      Server.ssid (fun s => rfl)]
    exact hInv.ssidNodup
  · intro s' hs'
    rcases mem_updServer_cases hs' with ⟨s2, hs2, he2, rfl⟩ | ⟨hs2, hne2⟩
    · rcases mem_updServer_cases hs2 with ⟨s3, hs3, he3, rfl⟩ | ⟨hs3, _⟩
      · exact hInv.ssidLt s3 hs3
      · exact hInv.ssidLt s2 hs3
    · rcases mem_updServer_cases hs2 with ⟨s3, _, he3, rfl⟩ | ⟨hs3, _⟩
      · exact absurd he3 hne2
      · exact hInv.ssidLt s' hs3
  · intro s' hs' j hj hfor
    rcases List.mem_append.mp hj with hj1 | hj2
    · rcases mem_updServer_cases hs' with ⟨s2, hs2, he2, rfl⟩ | ⟨hs2, hne2⟩
      · exfalso
        rcases mem_updServer_cases hs2 with ⟨s3, _, he3, rfl⟩ | ⟨hs3, he3⟩
        · exact schedDel_no_update_job hInv hfind j hj1 (by
            simpa [he3] using hfor)
        · exact schedDel_no_update_job hInv hfind j hj1 (by
            simpa [he2] using hfor)
      · rcases mem_updServer_cases hs2 with ⟨s3, _, he3, rfl⟩ | ⟨hs3, _⟩
        · exact absurd he3 hne2
        · exact hInv.tracked s' hs3 j (schedDelHandle_jobs_subset j hj1) hfor
    · rw [List.mem_singleton] at hj2
      subst hj2
      have hs'ssid : s'.ssid = ssid := by
        simpa [isUpdateJobFor, updateTargetSsid, hdec] using hfor.symm
      rcases mem_updServer_cases hs' with ⟨s2, hs2, he2, rfl⟩ | ⟨hs2, hne2⟩
      · rfl
      · exact absurd hs'ssid hne2
  · intro s' hs' j hj hh
    rcases mem_updServer_cases hs' with ⟨s2, hs2, he2, rfl⟩ | ⟨hs2, hne2⟩
    · simp only at hh
      have hjh : j.handle = st.sched.nextHandle := (Option.some.inj hh).symm
      rcases List.mem_append.mp hj with hj1 | hj2
      · exfalso
        have := hInv.jobsLt j (schedDelHandle_jobs_subset j hj1)
        omega
      · rw [List.mem_singleton] at hj2
        subst hj2
        show updateTargetSsid (ClbKind.sendUpdate
          (send_update_args_encode ssid refresh)) = some _
        simp [updateTargetSsid, hdec, he2]
    · rcases mem_updServer_cases hs2 with ⟨s3, _, he3, rfl⟩ | ⟨hs3, _⟩
      · exact absurd he3 hne2
      · rcases List.mem_append.mp hj with hj1 | hj2
        · exact hInv.owned s' hs3 j (schedDelHandle_jobs_subset j hj1) hh
        · exfalso
          rw [List.mem_singleton] at hj2
          subst hj2
          have := hInv.srvLt s' hs3 st.sched.nextHandle hh
          omega

/-- The cancel-only state (scheduling refused) preserves the invariant. -/
theorem inv_cancel_only {st : St} {ssid : Nat} {srv : Server}
    (hInv : Inv st)
    (hfind : _anjay_servers_find_active st.servers ssid = some srv)
    (off : Bool) :
    Inv { servers := updServer ssid
            (fun s => { s with sched_update_handle := none }) st.servers,
          sched := schedDelHandle st.sched srv.sched_update_handle,
          offline := off } := by
  refine ⟨?_, ?_, ?_, ?_, ?_, ?_, ?_⟩ <;> simp only []
  · exact (schedDelHandle_map_sublist _ _).nodup hInv.jobsNodup
  · intro j hj
    rw [schedDelHandle_nextHandle]
    exact hInv.jobsLt j (schedDelHandle_jobs_subset j hj)
  · intro s' hs' h hh
    rw [schedDelHandle_nextHandle]
    rcases mem_updServer_cases hs' with ⟨s2, hs2, he2, rfl⟩ | ⟨hs2, hne2⟩
    · simp at hh
    · exact hInv.srvLt s' hs2 h hh
  · rw [map_proj_updServer ssid
      (fun s => { s with sched_update_handle := none })
      Server.ssid (fun s => rfl)]
    exact hInv.ssidNodup
  · intro s' hs'
    rcases mem_updServer_cases hs' with ⟨s2, hs2, he2, rfl⟩ | ⟨hs2, hne2⟩
    · exact hInv.ssidLt s2 hs2
    · exact hInv.ssidLt s' hs2
  · intro s' hs' j hj hfor
    rcases mem_updServer_cases hs' with ⟨s2, hs2, he2, rfl⟩ | ⟨hs2, hne2⟩
    · exfalso
      exact schedDel_no_update_job hInv hfind j hj (by simpa [he2] using hfor)
    · exact hInv.tracked s' hs2 j (schedDelHandle_jobs_subset j hj) hfor
  · intro s' hs' j hj hh
    rcases mem_updServer_cases hs' with ⟨s2, hs2, he2, rfl⟩ | ⟨hs2, hne2⟩
    · simp at hh
    · exact hInv.owned s' hs2 j (schedDelHandle_jobs_subset j hj) hh

/-! ## Claim C2: at most one pending update job per server -/

/-- C2: each operation that schedules a new update job for a server — the
rescheduling after a successful update, the zero-delay rescheduling used by
the public update/reconnect operations, and the re-arming after a successful
register — preserves the well-formedness invariant, hence in every resulting
state no two distinct update jobs for the same server are pending; moreover
each of them cancels the server's existing handle before scheduling the
replacement (the cancel event precedes any schedule event in the trace). -/
theorem claim_C2 (env : Env) (st : St) (ssid : Nat) (refresh : Bool)
    (hInv : Inv st) :
    (Inv (reschedule_update_for_server env st ssid refresh).st ∧
     AtMostOneUpdateJob (reschedule_update_for_server env st ssid refresh).st) ∧
    (Inv (_anjay_server_reschedule_update_job env st ssid).st ∧
     AtMostOneUpdateJob (_anjay_server_reschedule_update_job env st ssid).st) ∧
    (Inv (_anjay_server_register env st ssid).st ∧
     AtMostOneUpdateJob (_anjay_server_register env st ssid).st) ∧
    (∀ srv, _anjay_servers_find_active st.servers ssid = some srv →
      (∃ rest, (reschedule_update_for_server env st ssid refresh).tr =
        Event.schedDel srv.sched_update_handle :: rest) ∧
      (∃ rest, (_anjay_server_reschedule_update_job env st ssid).tr =
        Event.schedDel srv.sched_update_handle :: rest) ∧
      ((_anjay_server_register env st ssid).res = 0 →
        ∃ t1 rest, (_anjay_server_register env st ssid).tr =
          t1 ++ Event.schedDel srv.sched_update_handle :: rest ∧
          ∀ h d c, Event.schedAdd h d c ∉ t1)) := by
  have HA : Inv (reschedule_update_for_server env st ssid refresh).st := by
    cases hfind : _anjay_servers_find_active st.servers ssid with
    | none => simp only [reschedule_update_for_server, hfind]; exact hInv
    | some srv =>
        rw [reschedule_for_server_eq env st ssid refresh srv hfind]
        by_cases hok : env.schedOk = true
        · rw [if_pos hok]
          exact inv_cancel_schedule hInv hfind _ refresh st.offline
        · rw [if_neg hok]
          exact inv_cancel_only hInv hfind st.offline
  have HB : Inv (_anjay_server_reschedule_update_job env st ssid).st := by
    cases hfind : _anjay_servers_find_active st.servers ssid with
    | none =>
        simp only [_anjay_server_reschedule_update_job, hfind]; exact hInv
    | some srv =>
        rw [reschedule_update_job_eq env st ssid srv hfind]
        by_cases hok : env.schedOk = true
        · rw [if_pos hok]
          exact inv_cancel_schedule hInv hfind _ false st.offline
        · rw [if_neg hok]
          exact inv_cancel_only hInv hfind st.offline
  have HC : Inv (_anjay_server_register env st ssid).st := by
    cases hfind : _anjay_servers_find_active st.servers ssid with
    | none => simp only [_anjay_server_register, hfind]; exact hInv
    | some srv =>
        cases hsetup : env.setupConn ssid srv.registration_info.conn_type with
        | none =>
            simp only [_anjay_server_register, hfind, hsetup]; exact hInv
        | some c =>
            have hInvc : Inv { st with
                servers := updServer ssid
                  (fun s =>
                    { s with registration_info :=
                        { s.registration_info with conn_type := c } })
                  st.servers } :=
              inv_updPreserving ssid _ (fun s => rfl) (fun s => rfl) hInv
            have hfindc : _anjay_servers_find_active
                (updServer ssid (fun s =>
                  { s with registration_info :=
                    { s.registration_info with conn_type := c } })
                  st.servers) ssid =
                some { srv with registration_info :=
                  { srv.registration_info with conn_type := c } } := by
              rw [find?_updServer_eq ssid (fun s =>
                { s with registration_info :=
                  { s.registration_info with conn_type := c } })
                (fun s => rfl) _, hfind, Option.map_some']
            by_cases hbind : env.bindStreamOk ssid c = true
            · by_cases hreg : env.registerResult = 0
              · have hfind2 : _anjay_servers_find_active
                    (updServer ssid
                      (fun s => { s with sched_update_handle := none })
                      (updServer ssid (fun s =>
                        { s with registration_info :=
                          { s.registration_info with conn_type := c } })
                        st.servers)) ssid =
                    some ⟨srv.ssid,
                      { srv.registration_info with conn_type := c },
                      none⟩ := by
                  rw [find?_updServer_eq ssid
                    (fun s => { s with sched_update_handle := none })
                    (fun s => rfl) _, hfindc, Option.map_some']
                by_cases hok : env.schedOk = true
                · have heq : _anjay_server_register env st ssid =
                      ⟨0,
                       { servers := updServer ssid
                           (fun s =>
                             { s with
                                sched_update_handle := some st.sched.nextHandle })
                           (updServer ssid
                             (fun s => { s with sched_update_handle := none })
                             (updServer ssid (fun s =>
                               { s with registration_info :=
                                 { s.registration_info with
                                    conn_type := c } })
                               st.servers)),
                         sched := ⟨(schedDelHandle st.sched
                             srv.sched_update_handle).jobs ++
                           [⟨st.sched.nextHandle,
                             schedule_next_update_delay
                               { srv.registration_info with conn_type := c }
                               env.now,
                             ClbKind.sendUpdate
                               (send_update_args_encode ssid false)⟩],
                           st.sched.nextHandle + 1⟩,
                         offline := st.offline },
                       [Event.setupRegistrationConnection ssid,
                        Event.bindStream ssid c, Event.registerExchange,
                        Event.streamReset,
                        Event.schedDel srv.sched_update_handle,
                        Event.schedAdd st.sched.nextHandle
                          (schedule_next_update_delay
                            { srv.registration_info with conn_type := c }
                            env.now)
                          (ClbKind.sendUpdate
                            (send_update_args_encode ssid false)),
                        Event.observeFlush,
                        Event.bootstrapNotifyRegularConnection,
                        Event.releaseStream]⟩ := by
                    simp only [_anjay_server_register, hfind, hsetup, hbind,
                      hreg, if_pos, sched_del_update_handle, hfindc,
                      schedule_next_update, hfind2, schedule_update, hok,
                      schedDelHandle_nextHandle, if_true]
                    simp [schedDelHandle_nextHandle]
                  rw [heq]
                  exact inv_cancel_schedule hInvc hfindc
                    (schedule_next_update_delay
                      { srv.registration_info with conn_type := c } env.now)
                    false st.offline
                · have heq : _anjay_server_register env st ssid =
                      ⟨0,
                       { servers := updServer ssid
                           (fun s => { s with sched_update_handle := none })
                           (updServer ssid (fun s =>
                             { s with registration_info :=
                               { s.registration_info with conn_type := c } })
                             st.servers),
                         sched := schedDelHandle st.sched
                           srv.sched_update_handle,
                         offline := st.offline },
                       [Event.setupRegistrationConnection ssid,
                        Event.bindStream ssid c, Event.registerExchange,
                        Event.streamReset,
                        Event.schedDel srv.sched_update_handle,
                        Event.observeFlush,
                        Event.bootstrapNotifyRegularConnection,
                        Event.releaseStream]⟩ := by
                    simp only [_anjay_server_register, hfind, hsetup, hbind,
                      hreg, sched_del_update_handle, hfindc,
                      schedule_next_update, hfind2, schedule_update, hok]
                    simp [hok]
                  rw [heq]
                  exact inv_cancel_only hInvc hfindc st.offline
              · have heq : _anjay_server_register env st ssid =
                    ⟨env.registerResult,
                     { servers := updServer ssid (fun s =>
                         { s with registration_info :=
                           { s.registration_info with conn_type := c } })
                         st.servers,
                       sched := st.sched, offline := st.offline },
                     [Event.setupRegistrationConnection ssid,
                      Event.bindStream ssid c, Event.registerExchange,
                      Event.streamReset, Event.releaseStream]⟩ := by
                  simp only [_anjay_server_register, hfind, hsetup, hbind,
                    hreg]
                  simp [hbind, hreg]
                rw [heq]
                exact hInvc
            · have heq : _anjay_server_register env st ssid =
                  ⟨-1,
                   { servers := updServer ssid (fun s =>
                       { s with registration_info :=
                         { s.registration_info with conn_type := c } })
                       st.servers,
                     sched := st.sched, offline := st.offline },
                   [Event.setupRegistrationConnection ssid]⟩ := by
                simp only [_anjay_server_register, hfind, hsetup]
                simp [hbind]
              rw [heq]
              exact hInvc
  refine ⟨⟨HA, atMostOne_of_inv HA⟩, ⟨HB, atMostOne_of_inv HB⟩,
    ⟨HC, atMostOne_of_inv HC⟩, ?_⟩
  intro srv hfind
  refine ⟨?_, ?_, ?_⟩
  · rw [reschedule_for_server_eq env st ssid refresh srv hfind]
    by_cases hok : env.schedOk = true
    · rw [if_pos hok]
      exact ⟨_, rfl⟩
    · rw [if_neg hok]
      exact ⟨[], rfl⟩
  · rw [reschedule_update_job_eq env st ssid srv hfind]
    by_cases hok : env.schedOk = true
    · rw [if_pos hok]
      exact ⟨_, rfl⟩
    · rw [if_neg hok]
      exact ⟨[], rfl⟩
  · intro hres0
    cases hsetup : env.setupConn ssid srv.registration_info.conn_type with
    | none =>
        exfalso
        have heq : _anjay_server_register env st ssid =
            ⟨-1, st, [Event.setupRegistrationConnection ssid]⟩ := by
          simp only [_anjay_server_register, hfind, hsetup]
        rw [heq] at hres0
        simp at hres0
    | some c =>
        have hfindc : _anjay_servers_find_active
            (updServer ssid (fun s =>
              { s with registration_info :=
                { s.registration_info with conn_type := c } })
              st.servers) ssid =
            some { srv with registration_info :=
              { srv.registration_info with conn_type := c } } := by
          rw [find?_updServer_eq ssid (fun s =>
            { s with registration_info :=
              { s.registration_info with conn_type := c } })
            (fun s => rfl) _, hfind, Option.map_some']
        by_cases hbind : env.bindStreamOk ssid c = true
        · by_cases hreg : env.registerResult = 0
          · have hfind2 : _anjay_servers_find_active
                (updServer ssid
                  (fun s => { s with sched_update_handle := none })
                  (updServer ssid (fun s =>
                    { s with registration_info :=
                      { s.registration_info with conn_type := c } })
                    st.servers)) ssid =
                some ⟨srv.ssid,
                  { srv.registration_info with conn_type := c }, none⟩ := by
              rw [find?_updServer_eq ssid
                (fun s => { s with sched_update_handle := none })
                (fun s => rfl) _, hfindc, Option.map_some']
            by_cases hok : env.schedOk = true
            · have heq : (_anjay_server_register env st ssid).tr =
                  [Event.setupRegistrationConnection ssid,
                   Event.bindStream ssid c, Event.registerExchange,
                   Event.streamReset,
                   Event.schedDel srv.sched_update_handle,
                   Event.schedAdd st.sched.nextHandle
                     (schedule_next_update_delay
                       { srv.registration_info with conn_type := c } env.now)
                     (ClbKind.sendUpdate
                       (send_update_args_encode ssid false)),
                   Event.observeFlush,
                   Event.bootstrapNotifyRegularConnection,
                   Event.releaseStream] := by
                simp only [_anjay_server_register, hfind, hsetup, hbind,
                  hreg, sched_del_update_handle, hfindc,
                  schedule_next_update, hfind2, schedule_update, hok,
                  schedDelHandle_nextHandle]
                simp [hok, schedDelHandle_nextHandle]
              refine ⟨[Event.setupRegistrationConnection ssid,
                Event.bindStream ssid c, Event.registerExchange,
                Event.streamReset], _, heq, ?_⟩
              intro h d cc
              simp
            · have heq : (_anjay_server_register env st ssid).tr =
                  [Event.setupRegistrationConnection ssid,
                   Event.bindStream ssid c, Event.registerExchange,
                   Event.streamReset,
                   Event.schedDel srv.sched_update_handle,
                   Event.observeFlush,
                   Event.bootstrapNotifyRegularConnection,
                   Event.releaseStream] := by
                simp only [_anjay_server_register, hfind, hsetup, hbind,
                  hreg, sched_del_update_handle, hfindc,
                  schedule_next_update, hfind2, schedule_update, hok]
                simp [hok]
              refine ⟨[Event.setupRegistrationConnection ssid,
                Event.bindStream ssid c, Event.registerExchange,
                Event.streamReset], _, heq, ?_⟩
              intro h d cc
              simp
          · exfalso
            have heq : (_anjay_server_register env st ssid).res =
                env.registerResult := by
              simp only [_anjay_server_register, hfind, hsetup, hbind, hreg]
              simp [hbind, hreg]
            rw [heq] at hres0
            exact hreg hres0
        · exfalso
          have heq : (_anjay_server_register env st ssid).res = -1 := by
            simp only [_anjay_server_register, hfind, hsetup]
            simp [hbind]
          rw [heq] at hres0
          simp at hres0

/-- Witness for C2 on the concrete one-server state. -/
theorem claim_C2_witness :
    Inv (reschedule_update_for_server envNop stOne 2 false).st ∧
    AtMostOneUpdateJob (reschedule_update_for_server envNop stOne 2 false).st :=
  (claim_C2 envNop stOne 2 false
    ⟨by simp [stOne], by simp [stOne], by simp [stOne], by simp [stOne],
     by norm_num [stOne], by simp [stOne], by simp [stOne]⟩).1

/-! ## Claim C9: the public schedule-registration-update operation -/

theorem find?_eq_of_mem_nodup {l : List Server} {s : Server} (hs : s ∈ l)
    (hnd : (l.map Server.ssid).Nodup) :
    _anjay_servers_find_active l s.ssid = some s := by
  induction l with
  | nil => cases hs
  | cons a t ih =>
      rw [List.map_cons, List.nodup_cons] at hnd
      rcases List.mem_cons.mp hs with rfl | hst
      · unfold _anjay_servers_find_active
        rw [List.find?_cons_of_pos _ (by simp)]
      · by_cases hae : a.ssid = s.ssid
        · exfalso
          exact hnd.1 (hae ▸ List.mem_map_of_mem Server.ssid hst)
        · unfold _anjay_servers_find_active at ih ⊢
          rw [List.find?_cons_of_neg _ (by simp [hae])]
          exact ih hst hnd.2

/-- The server with SSID `q` has an armed handle pointing at a pending
zero-delay update job carrying the given reconnect flag. -/
def Done (st : St) (refresh : Bool) (q : Nat) : Prop :=
  ∃ s h, _anjay_servers_find_active st.servers q = some s ∧
    s.sched_update_handle = some h ∧
    (⟨h, AVS_TIME_DURATION_ZERO,
      ClbKind.sendUpdate (send_update_args_encode q refresh)⟩ : SchedJob) ∈
      st.sched.jobs

/-- One step of rescheduling: invariant kept, success, SSIDs and offline flag
unchanged, the target server rescheduled, and every other server's
rescheduling preserved. -/
theorem reschedule_step (env : Env) (st : St) (ssid : Nat) (refresh : Bool)
    (hok : env.schedOk = true) (hInv : Inv st) (srv : Server)
    (hfind : _anjay_servers_find_active st.servers ssid = some srv) :
    Inv (reschedule_update_for_server env st ssid refresh).st ∧
    (reschedule_update_for_server env st ssid refresh).res = 0 ∧
    (reschedule_update_for_server env st ssid refresh).st.servers.map
      Server.ssid = st.servers.map Server.ssid ∧
    (reschedule_update_for_server env st ssid refresh).st.offline =
      st.offline ∧
    Done (reschedule_update_for_server env st ssid refresh).st refresh ssid ∧
    (∀ q, q ≠ ssid → Done st refresh q →
      Done (reschedule_update_for_server env st ssid refresh).st refresh q) := by
  have heq := reschedule_for_server_eq env st ssid refresh srv hfind
  rw [if_pos hok] at heq
  rw [heq]
  refine ⟨inv_cancel_schedule hInv hfind _ refresh st.offline, rfl, ?_, rfl,
    ?_, ?_⟩
  · simp only []
    rw [map_proj_updServer ssid
      (fun s => { s with sched_update_handle := some st.sched.nextHandle })
      Server.ssid (fun s => rfl),
      map_proj_updServer ssid
      (fun s => { s with sched_update_handle := none })
      Server.ssid (fun s => rfl)]
  · refine ⟨⟨srv.ssid, srv.registration_info, some st.sched.nextHandle⟩,
      st.sched.nextHandle, ?_, rfl, ?_⟩
    · simp only []
      rw [find?_updServer_eq ssid
        (fun s => { s with sched_update_handle := some st.sched.nextHandle })
        (fun s => rfl) _,
        find?_updServer_eq ssid
        (fun s => { s with sched_update_handle := none })
        (fun s => rfl) _, hfind]
      rfl
    · simp only []
      exact List.mem_append_right _ (List.mem_singleton.mpr rfl)
  · intro q hq hD
    obtain ⟨sq, hh, hfindq, hhq, hjq⟩ := hD
    have hsqmem : sq ∈ st.servers := List.mem_of_find?_eq_some hfindq
    have hsqssid : sq.ssid = q := by simpa using List.find?_some hfindq
    have hqlt : q < 65536 := hsqssid ▸ hInv.ssidLt sq hsqmem
    refine ⟨sq, hh, ?_, hhq, ?_⟩
    · simp only []
      rw [find?_updServer_ne ssid q hq
        (fun s => { s with sched_update_handle := some st.sched.nextHandle })
        (fun s => rfl) _,
        find?_updServer_ne ssid q hq
        (fun s => { s with sched_update_handle := none })
        (fun s => rfl) _]
      exact hfindq
    · simp only []
      apply List.mem_append_left
      apply schedDel_keeps_other_jobs hInv hfind _ hjq
      simp only [isUpdateJobFor, updateTargetSsid, decode_encode hqlt,
        Option.some.injEq]
      exact hq

/-- Induction over the per-server loop of
`reschedule_update_for_all_servers`. -/
theorem reschedule_all_go_spec (env : Env) (refresh : Bool)
    (hok : env.schedOk = true) :
    ∀ (todo : List Nat) (st : St) (acc : Int) (tr : List Event),
      Inv st →
      (∀ q ∈ todo, q ∈ st.servers.map Server.ssid) →
      Inv (reschedule_all_go env refresh todo st acc tr).st ∧
      (reschedule_all_go env refresh todo st acc tr).res = acc ∧
      (reschedule_all_go env refresh todo st acc tr).st.servers.map
        Server.ssid = st.servers.map Server.ssid ∧
      (reschedule_all_go env refresh todo st acc tr).st.offline =
        st.offline ∧
      (∀ q ∈ todo,
        Done (reschedule_all_go env refresh todo st acc tr).st refresh q) ∧
      (∀ q, q ∉ todo → Done st refresh q →
        Done (reschedule_all_go env refresh todo st acc tr).st refresh q) := by
  intro todo
  induction todo with
  | nil =>
      intro st acc tr hInv _
      exact ⟨hInv, rfl, rfl, rfl, by simp, fun q _ hD => hD⟩
  | cons ssid rest ih =>
      intro st acc tr hInv hpres
      obtain ⟨srv, hsrvmem, hsrvssid⟩ : ∃ s, s ∈ st.servers ∧ s.ssid = ssid := by
        have hm := hpres ssid (List.mem_cons_self _ _)
        rw [List.mem_map] at hm
        obtain ⟨s, hs, hss⟩ := hm
        exact ⟨s, hs, hss⟩
      have hfind : _anjay_servers_find_active st.servers ssid = some srv := by
        have h0 := find?_eq_of_mem_nodup hsrvmem hInv.ssidNodup
        rwa [hsrvssid] at h0
      obtain ⟨sInv, sRes, sMap, sOff, sDone, sKeep⟩ :=
        reschedule_step env st ssid refresh hok hInv srv hfind
      have hpres' : ∀ q ∈ rest,
          q ∈ (reschedule_update_for_server env st ssid
            refresh).st.servers.map Server.ssid := by
        intro q hq
        rw [sMap]
        exact hpres q (List.mem_cons_of_mem _ hq)
      obtain ⟨iInv, iRes, iMap, iOff, iDone, iKeep⟩ :=
        ih (reschedule_update_for_server env st ssid refresh).st
          (if acc = 0 then
            (reschedule_update_for_server env st ssid refresh).res
           else acc)
          (tr ++ (reschedule_update_for_server env st ssid refresh).tr)
          sInv hpres'
      have hstep : reschedule_all_go env refresh (ssid :: rest) st acc tr =
          reschedule_all_go env refresh rest
            (reschedule_update_for_server env st ssid refresh).st
            (if acc = 0 then
              (reschedule_update_for_server env st ssid refresh).res
             else acc)
            (tr ++ (reschedule_update_for_server env st ssid refresh).tr) :=
        rfl
      rw [hstep]
      refine ⟨iInv, ?_, ?_, ?_, ?_, ?_⟩
      · rw [iRes, sRes]
        by_cases hacc : acc = 0
        · rw [if_pos hacc, hacc]
        · rw [if_neg hacc]
      · rw [iMap, sMap]
      · rw [iOff, sOff]
      · intro q hq
        rcases List.mem_cons.mp hq with rfl | hqr
        · by_cases hqrest : q ∈ rest
          · exact iDone q hqrest
          · exact iKeep q hqrest sDone
        · exact iDone q hqr
      · intro q hq hD
        have hq1 : q ≠ ssid := fun h => hq (h ▸ List.mem_cons_self _ _)
        have hq2 : q ∉ rest := fun h => hq (List.mem_cons_of_mem _ h)
        exact iKeep q hq2 (sKeep q hq1 hD)

/-- C9: the public schedule-registration-update operation fails with no
scheduler call and no state change when the agent is offline (any target) or
when the given single SSID is not active; for an active single SSID it
cancels the pending update job and schedules a zero-delay update job with
the reconnect flag not set; and for the all-servers target every active
server ends up with an armed handle pointing at its own pending zero-delay
no-reconnect update job. -/
theorem claim_C9 (env : Env) (st : St) (hInv : Inv st) :
    (st.offline = true → ∀ ssid,
      anjay_schedule_registration_update env st ssid = ⟨-1, st, []⟩) ∧
    (st.offline = false → ∀ ssid, ssid ≠ ANJAY_SSID_ANY →
      _anjay_servers_find_active st.servers ssid = none →
      anjay_schedule_registration_update env st ssid = ⟨-1, st, []⟩) ∧
    (st.offline = false → ∀ ssid srv, ssid ≠ ANJAY_SSID_ANY →
      _anjay_servers_find_active st.servers ssid = some srv →
      anjay_schedule_registration_update env st ssid =
        reschedule_update_for_server env st ssid false ∧
      (env.schedOk = true →
        anjay_schedule_registration_update env st ssid =
          ⟨0,
           { servers := updServer ssid
               (fun s =>
                 { s with
                    sched_update_handle := some st.sched.nextHandle })
               (updServer ssid
                 (fun s => { s with sched_update_handle := none })
                 st.servers),
             sched := ⟨(schedDelHandle st.sched
                 srv.sched_update_handle).jobs ++
               [⟨st.sched.nextHandle, AVS_TIME_DURATION_ZERO,
                 ClbKind.sendUpdate (send_update_args_encode ssid false)⟩],
               st.sched.nextHandle + 1⟩,
             offline := st.offline },
           [Event.schedDel srv.sched_update_handle,
            Event.schedAdd st.sched.nextHandle AVS_TIME_DURATION_ZERO
              (ClbKind.sendUpdate (send_update_args_encode ssid false))]⟩)) ∧
    (st.offline = false → env.schedOk = true →
      (anjay_schedule_registration_update env st ANJAY_SSID_ANY).res = 0 ∧
      ∀ s' ∈ (anjay_schedule_registration_update env st
        ANJAY_SSID_ANY).st.servers,
        ∃ h, s'.sched_update_handle = some h ∧
          (⟨h, AVS_TIME_DURATION_ZERO, ClbKind.sendUpdate
            (send_update_args_encode s'.ssid false)⟩ : SchedJob) ∈
            (anjay_schedule_registration_update env st
              ANJAY_SSID_ANY).st.sched.jobs) := by
  refine ⟨?_, ?_, ?_, ?_⟩
  · intro hoff ssid
    simp [anjay_schedule_registration_update, hoff]
  · intro hoff ssid hne hfind
    simp [anjay_schedule_registration_update, hoff, hne, hfind]
  · intro hoff ssid srv hne hfind
    have hunf : anjay_schedule_registration_update env st ssid =
        reschedule_update_for_server env st ssid false := by
      simp [anjay_schedule_registration_update, hoff, hne, hfind]
    refine ⟨hunf, ?_⟩
    intro hok
    rw [hunf, reschedule_for_server_eq env st ssid false srv hfind,
      if_pos hok]
  · intro hoff hok
    have hunf : anjay_schedule_registration_update env st ANJAY_SSID_ANY =
        reschedule_all_go env false (st.servers.map Server.ssid) st 0 [] := by
      simp [anjay_schedule_registration_update, hoff,
        reschedule_update_for_all_servers]
    obtain ⟨fInv, fRes, fMap, _, fDone, _⟩ :=
      reschedule_all_go_spec env false hok (st.servers.map Server.ssid) st 0
        [] hInv (fun q hq => hq)
    rw [hunf]
    refine ⟨fRes, ?_⟩
    intro s' hs'
    have hmem : s'.ssid ∈ st.servers.map Server.ssid := by
      rw [← fMap]
      exact List.mem_map_of_mem Server.ssid hs'
    obtain ⟨sq, h, hfindq, hhq, hjob⟩ := fDone s'.ssid hmem
    have hfind' := find?_eq_of_mem_nodup hs' fInv.ssidNodup
    rw [hfindq] at hfind'
    obtain rfl : sq = s' := Option.some.inj hfind'
    exact ⟨h, hhq, hjob⟩

/-- Witness for C9 on the concrete one-server state. -/
theorem claim_C9_witness :
    anjay_schedule_registration_update envNop stOne 2 =
      reschedule_update_for_server envNop stOne 2 false ∧
    (anjay_schedule_registration_update envNop stOne ANJAY_SSID_ANY).res =
      0 := by
  have h := claim_C9 envNop stOne
    ⟨by simp [stOne], by simp [stOne], by simp [stOne], by simp [stOne],
     by norm_num [stOne], by simp [stOne], by simp [stOne]⟩
  exact ⟨(h.2.2.1 rfl 2 ⟨2, ⟨ConnType.udp, 10, 0⟩, none⟩ (by decide) rfl).1,
    (h.2.2.2 rfl rfl).1⟩

end Anjay
